import Mathlib

set_option autoImplicit false

set_option maxRecDepth 100000

set_option linter.unusedVariables false

/-!
Shallow embedding of the core components of the decide.fyi repository:

* the fixed-window rate limiter of `src/lib/rate-limit.js`
  (`createRateLimiter` / `checkRateLimit`);
* the zendesk refund workflow handler and its idempotency cache
  (`zendeskRefundWorkflow`, `buildIdempotencyKey`, `pruneIdempotencyCache`,
  `normalizeText`, `normalizeDecision`, `parseDays` in `src/lib/log.js`);
* the cancellation policy evaluator of `src/lib/cancel-compute.js`
  (`validateInput` / `compute`).

JS `Map` objects are modelled as insertion-ordered association lists,
`Date.now()` instants as natural numbers (epoch milliseconds), JS strings as
Lean `String`s, and values that may be absent or non-strings as `Option`s.
-/

/-- One record of the rate-limit table: the `{ count, resetAt }` object of
`src/lib/rate-limit.js`. -/

structure RLRecord where
  count : Nat
  resetAt : Nat
deriving DecidableEq

/-- `Map.prototype.get`: the first entry with the given key, if any. -/

def mapGet {α : Type} (k : String) : List (String × α) → Option α
  | [] => none
  | (k', v) :: rest => if k' = k then some v else mapGet k rest

/-- `Map.prototype.set`: overwrite the entry in place when the key exists,
append a new entry otherwise. -/

def mapSet {α : Type} (k : String) (v : α) : List (String × α) → List (String × α)
  | [] => [(k, v)]
  | (k', v') :: rest => if k' = k then (k, v) :: rest else (k', v') :: mapSet k v rest

/-- The cleanup loop at the top of `checkRateLimit`: delete every record whose
`resetAt` is strictly in the past (`v.resetAt < now`). -/

def sweepExpired (now : Nat) (store : List (String × RLRecord)) :
    List (String × RLRecord) :=
  store.filter (fun kv => !decide (kv.2.resetAt < now))

/-- The result object returned by `checkRateLimit`. A denial carries
`retryAfter`; an allowance does not. -/

structure LimitResult where
  allowed : Bool
  limit : Nat
  remaining : Int
  reset : Nat
  retryAfter : Option Nat
deriving DecidableEq

/-- The checker returned by `createRateLimiter(requests, window)`, with the
closed-over `rateLimitStore` passed and returned explicitly.  Mirrors
`src/lib/rate-limit.js` lines 16-68: sweep when the table exceeds 10000
entries, then create/reset a fresh record (`count = 1`,
`resetAt = now + window`) when the key is absent or expired, else increment
`count` and deny once `count > requests`, reporting
`retryAfter = ceil((resetAt - now) / 1000)`. -/

def checkRateLimit (requests window : Nat) (now : Nat) (identifier : String)
    (store : List (String × RLRecord)) : LimitResult × List (String × RLRecord) :=
  let store1 := if store.length > 10000 then sweepExpired now store else store
  let freshRecord : RLRecord := { count := 1, resetAt := now + window }
  let freshOut : LimitResult × List (String × RLRecord) :=
    ({ allowed := true, limit := requests, remaining := (requests : Int) - 1,
       reset := freshRecord.resetAt, retryAfter := none },
     mapSet identifier freshRecord store1)
  match mapGet identifier store1 with
  | none => freshOut
  | some record =>
    if record.resetAt < now then freshOut
    else
      let record' : RLRecord := { record with count := record.count + 1 }
      let store2 := mapSet identifier record' store1
      if record'.count > requests then
        ({ allowed := false, limit := requests, remaining := 0, reset := record.resetAt,
           retryAfter := some ((record.resetAt - now + 999) / 1000) }, store2)
      else
        ({ allowed := true, limit := requests,
           remaining := (requests : Int) - record'.count,
           reset := record.resetAt, retryAfter := none }, store2)

/-- A strictly sequential run of `checkRateLimit` calls for one identity,
one call per timestamp. -/

def runCalls (requests window : Nat) (identifier : String) :
    List Nat → List (String × RLRecord) → List LimitResult × List (String × RLRecord)
  | [], store => ([], store)
  | t :: ts, store =>
    let step := checkRateLimit requests window t identifier store
    let rest := runCalls requests window identifier ts step.2
    (step.1 :: rest.1, rest.2)

/-- Two limiter instances obtained from two separate `createRateLimiter`
calls: each owns its own `rateLimitStore`. -/

structure LimiterPair where
  storeA : List (String × RLRecord)
  storeB : List (String × RLRecord)

/-- A `check` call on the first limiter instance of a pair. -/

def checkOnA (requests window now : Nat) (identifier : String) (p : LimiterPair) :
    LimitResult × LimiterPair :=
  let r := checkRateLimit requests window now identifier p.storeA
  (r.1, { p with storeA := r.2 })

/-- A `check` call on the second limiter instance of a pair. -/

def checkOnB (requests window now : Nat) (identifier : String) (p : LimiterPair) :
    LimitResult × LimiterPair :=
  let r := checkRateLimit requests window now identifier p.storeB
  (r.1, { p with storeB := r.2 })

/-- The rate-limit store used in the C5 analysis: 10001 distinct identities,
each with a record whose window ends exactly at instant 100. -/

def bigStore : List (String × RLRecord) :=
  (List.range 10001).map (fun i => (Nat.repr i, ⟨1, 100⟩))

/-! ### The zendesk refund workflow and its idempotency cache (`src/lib/log.js`) -/

/-- Drop leading whitespace characters from a character list. -/

def dropLeadingWS : List Char → List Char
  | [] => []
  | c :: cs => if c.isWhitespace then dropLeadingWS cs else c :: cs

/-- `String.prototype.trim()`: drop whitespace from both ends (modelled on
the character list so that it evaluates by kernel reduction). -/

def jsTrim (s : String) : String :=
  ⟨dropLeadingWS ((dropLeadingWS s.data.reverse).reverse)⟩

/-- `String.prototype.slice(0, n)`: the first `n` characters. -/

def jsTake (s : String) (n : Nat) : String := ⟨s.data.take n⟩

/-- `String.prototype.toLowerCase()` (ASCII letters). -/

def jsToLower (s : String) : String := ⟨s.data.map Char.toLower⟩

/-- `String.prototype.toUpperCase()` (ASCII letters). -/

def jsToUpper (s : String) : String := ⟨s.data.map Char.toUpper⟩

/-- JS truthiness fallback `value || d` for an optional string (`undefined`
and the empty string are falsy). -/

def jsOr (value : Option String) (d : String) : String :=
  match value with
  | some s => if s = "" then d else s
  | none => d

/-- JS truthiness fallback `s || d` for a string. -/

def jsOrS (s d : String) : String := if s = "" then d else s

/-- `normalizeText(value, maxLen)`: non-string values become `""`; strings
are trimmed and sliced to at most `maxLen` characters. -/

def normalizeText (value : Option String) (maxLen : Nat) : String :=
  match value with
  | none => ""
  | some s => jsTake (jsTrim s) maxLen

/-- `normalizeDecision(value)`: `String(value || "").toLowerCase().trim()`,
kept only when it is one of the three decision classes. -/

def normalizeDecision (value : Option String) : String :=
  let decision := jsTrim (jsToLower (jsOr value ""))
  if decision = "yes" ∨ decision = "no" ∨ decision = "tie" then decision else ""

/-- `parseDays(value)`: `Number(value)` is modelled as an optional rational
(`none` when the value does not coerce to a finite number); a finite value is
floored (`Math.floor`) and clamped at zero (`Math.max(0, _)`, which on
integers is exactly `Int.toNat`). -/

def parseDays (value : Option ℚ) : Option Nat :=
  match value with
  | none => none
  | some q => some q.floor.toNat

/-- `Array.prototype.join(":")`. -/

def joinColon : List String → String
  | [] => ""
  | [p] => p
  | p :: rest => p ++ ":" ++ joinColon rest

/-- `buildIdempotencyKey(payload)` (lines 76-86 of `src/lib/log.js`): join
ticket id, workflow type, vendor, `String(days_since_purchase)`, region and
plan with `":"`.  `String(n)` for the natural number produced by `parseDays`
is the decimal representation `Nat.repr`. -/

def buildIdempotencyKey (ticket_id workflow_type vendor : String)
    (days_since_purchase : Nat) (region plan : String) : String :=
  joinColon [ticket_id, workflow_type, vendor, Nat.repr days_since_purchase,
             region, plan]

/-- The JSON body of a policy endpoint response, as far as the workflow
inspects it: `verdict` (`none` models a missing or non-string field) and
`code`. -/

structure PolicyJson where
  verdict : Option String
  code : Option String
deriving DecidableEq

/-- The recommended zendesk action built by `buildZendeskAction`. -/

structure ZAction where
  type : String
  reason : String
deriving DecidableEq

/-- The 200-response payload of the zendesk refund workflow (the
`responsePayload` object), with nested objects flattened into labelled
fields. -/

structure ResponsePayload where
  ok : Bool
  flow : String
  ticket_id : String
  idempotency_key : String
  idempotent_replay : Bool
  decision_c : String
  decision_v : String
  decision_request_id : String
  policy : Option PolicyJson
  action_type : String
  action_reason : String
  zendesk_tags : List String
  zendesk_private_note : String
  echo_workflow_type : String
  echo_question : String
  echo_vendor : String
  echo_days_since_purchase : Nat
  echo_region : String
  echo_plan : String
deriving DecidableEq

/-- One idempotency cache entry: `{ expiresAt, response }`. -/

structure IdemEntry where
  expiresAt : Nat
  response : ResponsePayload
deriving DecidableEq

/-- `IDEMPOTENCY_TTL_MS = 24 * 60 * 60 * 1000`. -/

def IDEMPOTENCY_TTL_MS : Nat := 24 * 60 * 60 * 1000

/-- `pruneIdempotencyCache(now)` (lines 136-142): delete every entry with
`expiresAt <= now`. -/

def pruneIdempotencyCache (now : Nat) (cache : List (String × IdemEntry)) :
    List (String × IdemEntry) :=
  cache.filter (fun kv => !decide (kv.2.expiresAt ≤ now))

/-- The replay test of lines 295-296: `cached && cached.expiresAt > now`. -/

def cachedLookup (key : String) (now : Nat) (cache : List (String × IdemEntry)) :
    Option IdemEntry :=
  match mapGet key cache with
  | some entry => if now < entry.expiresAt then some entry else none
  | none => none

/-- The JSON body returned by the decide endpoint, as far as the workflow
inspects it. -/

structure DecideJson where
  c : Option String
  v : Option String
  request_id : Option String
  source : Option String
deriving DecidableEq

/-- Result of invoking the decide endpoint in-process (an external
collaborator of the workflow, modelled as an oracle value). -/

structure DecideResp where
  statusCode : Nat
  json : Option DecideJson
deriving DecidableEq

/-- Result of invoking the refund eligibility policy endpoint (an external
collaborator of the workflow, modelled as an oracle value). -/

structure PolicyResp where
  statusCode : Nat
  json : Option PolicyJson
deriving DecidableEq

/-- The non-deterministic inputs of one handler invocation: the decide and
policy endpoint outcomes and the stream of `rid()` values. -/

structure Oracles where
  decide : DecideResp
  policy : PolicyResp
  rids : Nat → String

/-- Lines 301-332: use a valid `decision_override` verbatim (with a fresh
request id and source tag), else consult the decide endpoint; `502` (the
error carries the classify status) unless it returned `200` with a valid
decision class. -/

def resolveDecision (decisionOverride : String) (overrideRid : String)
    (dec : DecideResp) : Except Nat DecideJson :=
  if decisionOverride ≠ "" then
    Except.ok { c := some decisionOverride, v := some decisionOverride,
                request_id := some overrideRid, source := some "decision_override" }
  else
    let decisionClass := normalizeDecision (dec.json.bind (·.c))
    if dec.statusCode ≠ 200 ∨ decisionClass = "" then Except.error dec.statusCode
    else Except.ok (dec.json.getD { c := none, v := none, request_id := none,
                                    source := none })

/-- Lines 338-367: when the decision class is `yes`, consult the refund
eligibility endpoint; `502` unless it returned `200` with a JSON body whose
`verdict` is a string.  Otherwise the policy is skipped (`none`). -/

def resolvePolicy (decisionClass : String) (pol : PolicyResp) :
    Except Nat (Option PolicyJson) :=
  if decisionClass = "yes" then
    match pol.json with
    | none => Except.error pol.statusCode
    | some pj =>
      if pol.statusCode ≠ 200 ∨ pj.verdict = none then Except.error pol.statusCode
      else Except.ok (some pj)
  else Except.ok none

/-- `buildZendeskAction` (lines 144-166). -/

def buildZendeskAction (decisionClass : String) (policy : Option PolicyJson) :
    ZAction :=
  if decisionClass = "tie" then
    { type := "escalate_policy_owner",
      reason := "Classifier returned tie; manual policy owner review required." }
  else if decisionClass = "no" then
    { type := "deny_refund",
      reason := "Classifier returned no; case does not proceed to automated refund execution." }
  else
    match policy with
    | none =>
      { type := "escalate_policy_owner",
        reason := "Policy service unavailable; manual review required." }
    | some pj =>
      if pj.verdict = some "ALLOWED" then
        { type := "approve_refund", reason := "Policy verdict ALLOWED within vendor rules." }
      else if pj.verdict = some "DENIED" then
        { type := "deny_refund", reason := "Policy verdict DENIED under vendor rules." }
      else
        { type := "escalate_policy_owner",
          reason := "Policy verdict UNKNOWN; manual review required." }

/-- `buildZendeskTags` (lines 168-181): the fixed tags plus a
lower-cased `refund_`-prefixed verdict tag when `policy?.verdict` is truthy. -/

def buildZendeskTags (workflowVersion decisionClass : String)
    (policy : Option PolicyJson) (action : ZAction) : List String :=
  let tags := ["decide", "decide_workflow", "wf_" ++ workflowVersion,
               "decide_" ++ decisionClass, "action_" ++ action.type]
  match policy with
  | some pj =>
    match pj.verdict with
    | some v => if v ≠ "" then tags ++ ["refund_" ++ jsToLower v] else tags
    | none => tags
  | none => tags

/-- `buildPrivateNote` (lines 183-206): the `\n`-joined note lines. -/

def buildPrivateNote (workflowVersion ticketId requestId decisionClass : String)
    (action : ZAction) (policy : Option PolicyJson) (idempotencyKey : String) :
    String :=
  let policyLine :=
    match policy with
    | some pj =>
      (match pj.verdict with
       | some v => v
       | none => "undefined") ++
      (match pj.code with
       | some c => if c ≠ "" then " (" ++ c ++ ")" else ""
       | none => "")
    | none => "SKIPPED"
  String.intercalate "\x0a"
    ["decide workflow: " ++ workflowVersion,
     "ticket_id: " ++ ticketId,
     "request_id: " ++ requestId,
     "decision: " ++ decisionClass,
     "policy: " ++ policyLine,
     "recommended_action: " ++ action.type,
     "reason: " ++ action.reason,
     "idempotency_key: " ++ idempotencyKey]

/-- The request body fields the workflow reads.  `none` models a missing or
non-string (for `days_since_purchase`: non-numeric) JSON field. -/

structure WorkflowBody where
  ticket_id : Option String
  vendor : Option String
  region : Option String
  plan : Option String
  days_since_purchase : Option ℚ
  workflow_type : Option String
  question : Option String
  decision_override : Option String
  idempotency_key : Option String

/-- An incoming request: HTTP method, the client IP extracted by
`getClientIp`, and the parsed JSON body (`none` models invalid JSON). -/

structure WorkflowReq where
  method : String
  clientIp : String
  body : Option WorkflowBody

/-- An error response body: the `error` code and `request_id`, plus
`retry_after` on rate-limit errors. -/

structure ErrBody where
  error : String
  request_id : String
  retry_after : Option Nat
deriving DecidableEq

/-- A response body: empty (204), an error object, or the 200 payload. -/

inductive BodyOut where
  | empty : BodyOut
  | err : ErrBody → BodyOut
  | ok : ResponsePayload → BodyOut
deriving DecidableEq

/-- An HTTP response: status, whether the `X-Idempotent-Replay` header was
set, and the body. -/

structure HandlerOut where
  status : Nat
  xIdempotentReplay : Bool
  body : BodyOut
deriving DecidableEq

/-- The module-level mutable state of the workflow endpoint: the rate limiter
table (`createRateLimiter(60, 60000)`) and the idempotency cache. -/

structure ServerState where
  rateStore : List (String × RLRecord)
  idemCache : List (String × IdemEntry)
deriving DecidableEq

/-- The idempotency key the handler derives on the valid-request path
(line 292): the normalized explicit key when non-empty, else
`buildIdempotencyKey` over the six normalized fields. -/

def derivedRequestKey (b : WorkflowBody) : String :=
  let ticketId := normalizeText b.ticket_id 120
  let vendor := jsToLower (normalizeText b.vendor 120)
  let region := jsOrS (jsToUpper (normalizeText b.region 20)) "US"
  let plan := jsOrS (jsToLower (normalizeText b.plan 40)) "individual"
  let workflowType := jsOrS (jsToLower (normalizeText b.workflow_type 40)) "refund"
  let days := (parseDays b.days_since_purchase).getD 0
  jsOrS (normalizeText b.idempotency_key 200)
    (buildIdempotencyKey ticketId workflowType vendor days region plan)

/-- `zendeskRefundWorkflow(req, res)` (lines 208-429 of `src/lib/log.js`),
as a pure state transformer.  `now` is the instant `Date.now()`; the decide
and policy endpoint invocations and the `rid()` generator are supplied as
oracles.  Header side effects other than `X-Idempotent-Replay` (CORS and
rate-limit headers) and the fire-and-forget `persistLog` call are not
modelled. -/

def zendeskRefundWorkflow (now : Nat) (o : Oracles) (req : WorkflowReq)
    (st : ServerState) : HandlerOut × ServerState :=
  if req.method = "OPTIONS" then
    ({ status := 204, xIdempotentReplay := false, body := BodyOut.empty }, st)
  else if req.method ≠ "POST" then
    ({ status := 405, xIdempotentReplay := false,
       body := BodyOut.err { error := "METHOD_NOT_ALLOWED", request_id := o.rids 0,
                             retry_after := none } }, st)
  else
    let rl := checkRateLimit 60 60000 now req.clientIp st.rateStore
    let st1 : ServerState := { rateStore := rl.2, idemCache := st.idemCache }
    if rl.1.allowed = false then
      ({ status := 429, xIdempotentReplay := false,
         body := BodyOut.err { error := "RATE_LIMIT_EXCEEDED", request_id := o.rids 0,
                               retry_after := rl.1.retryAfter } }, st1)
    else
      match req.body with
      | none =>
        ({ status := 400, xIdempotentReplay := false,
           body := BodyOut.err { error := "INVALID_JSON", request_id := o.rids 0,
                                 retry_after := none } }, st1)
      | some b =>
        let ticketId := normalizeText b.ticket_id 120
        let vendor := jsToLower (normalizeText b.vendor 120)
        let region := jsOrS (jsToUpper (normalizeText b.region 20)) "US"
        let plan := jsOrS (jsToLower (normalizeText b.plan 40)) "individual"
        let workflowType := jsOrS (jsToLower (normalizeText b.workflow_type 40)) "refund"
        let question := jsOrS (normalizeText b.question 400)
          ("Should this " ++ vendor ++ " refund request proceed under policy?")
        let decisionOverride := normalizeDecision b.decision_override
        if ticketId = "" ∨ vendor = "" then
          ({ status := 400, xIdempotentReplay := false,
             body := BodyOut.err { error := "MISSING_REQUIRED_FIELDS",
                                   request_id := o.rids 0, retry_after := none } }, st1)
        else
          match parseDays b.days_since_purchase with
          | none =>
            ({ status := 400, xIdempotentReplay := false,
               body := BodyOut.err { error := "MISSING_REQUIRED_FIELDS",
                                     request_id := o.rids 0, retry_after := none } }, st1)
          | some daysSincePurchase =>
            if workflowType ≠ "refund" then
              ({ status := 400, xIdempotentReplay := false,
                 body := BodyOut.err { error := "UNSUPPORTED_WORKFLOW_TYPE",
                                       request_id := o.rids 0, retry_after := none } }, st1)
            else
              let idempotencyKey := jsOrS (normalizeText b.idempotency_key 200)
                (buildIdempotencyKey ticketId workflowType vendor daysSincePurchase
                  region plan)
              let cache1 := pruneIdempotencyCache now st.idemCache
              let st2 : ServerState := { rateStore := rl.2, idemCache := cache1 }
              match cachedLookup idempotencyKey now cache1 with
              | some cached =>
                ({ status := 200, xIdempotentReplay := true,
                   body := BodyOut.ok { cached.response with idempotent_replay := true } },
                 st2)
              | none =>
                match resolveDecision decisionOverride (o.rids 1) o.decide with
                | Except.error _ =>
                  ({ status := 502, xIdempotentReplay := false,
                     body := BodyOut.err { error := "DECIDE_CLASSIFICATION_FAILED",
                                           request_id := o.rids 0, retry_after := none } },
                   st2)
                | Except.ok decisionPayload =>
                  let decisionClass := jsOrS (normalizeDecision decisionPayload.c) "tie"
                  let workflowRequestId :=
                    jsOrS (normalizeText decisionPayload.request_id 120) (o.rids 2)
                  match resolvePolicy decisionClass o.policy with
                  | Except.error _ =>
                    ({ status := 502, xIdempotentReplay := false,
                       body := BodyOut.err { error := "REFUND_POLICY_CHECK_FAILED",
                                             request_id := o.rids 0, retry_after := none } },
                     st2)
                  | Except.ok policyPayload =>
                    let action := buildZendeskAction decisionClass policyPayload
                    let tags := buildZendeskTags "zendesk_refund_v1" decisionClass
                      policyPayload action
                    let privateNote := buildPrivateNote "zendesk_refund_v1" ticketId
                      workflowRequestId decisionClass action policyPayload idempotencyKey
                    let responsePayload : ResponsePayload :=
                      { ok := true, flow := "zendesk_refund_v1", ticket_id := ticketId,
                        idempotency_key := idempotencyKey, idempotent_replay := false,
                        decision_c := decisionClass,
                        decision_v := jsOr decisionPayload.v decisionClass,
                        decision_request_id := workflowRequestId,
                        policy := policyPayload,
                        action_type := action.type, action_reason := action.reason,
                        zendesk_tags := tags, zendesk_private_note := privateNote,
                        echo_workflow_type := workflowType, echo_question := question,
                        echo_vendor := vendor,
                        echo_days_since_purchase := daysSincePurchase,
                        echo_region := region, echo_plan := plan }
                    ({ status := 200, xIdempotentReplay := false,
                       body := BodyOut.ok responsePayload },
                     { rateStore := rl.2,
                       idemCache := mapSet idempotencyKey
                         { expiresAt := now + IDEMPOTENCY_TTL_MS,
                           response := responsePayload } cache1 })

/-- A concrete stored workflow response used in the idempotency scenarios. -/

def sampleResponse : ResponsePayload :=
  { ok := true, flow := "zendesk_refund_v1", ticket_id := "ZD-9",
    idempotency_key := "K", idempotent_replay := false, decision_c := "no",
    decision_v := "no", decision_request_id := "r1", policy := none,
    action_type := "deny_refund", action_reason := "x", zendesk_tags := [],
    zendesk_private_note := "", echo_workflow_type := "refund",
    echo_question := "q", echo_vendor := "v", echo_days_since_purchase := 1,
    echo_region := "US", echo_plan := "individual" }

/-- A request body with an explicit idempotency key `"K"` and a decision
override, used in the idempotency scenarios. -/

def witnessBody : WorkflowBody :=
  { ticket_id := some "ZD-9", vendor := some "v", region := none, plan := none,
    days_since_purchase := some 1, workflow_type := none, question := none,
    decision_override := some "no", idempotency_key := some "K" }

/-- Oracles whose decide/policy endpoints fail; used to show replays do not
consult them. -/

def failingOracles : Oracles :=
  { decide := ⟨500, none⟩, policy := ⟨500, none⟩, rids := fun _ => "r" }

/-- The first and second run of the same logical request against a fresh
server state at times 1000 and 2000. -/

def replayDemoBody : WorkflowBody :=
  { ticket_id := some "ZD-1", vendor := some "Adobe ", region := none, plan := none,
    days_since_purchase := some 5, workflow_type := none, question := none,
    decision_override := some "no", idempotency_key := none }

/-- First run of the replay scenario. -/

def replayDemoFirst : HandlerOut × ServerState :=
  zendeskRefundWorkflow 1000 failingOracles ⟨"POST", "1.2.3.4", some replayDemoBody⟩ ⟨[], []⟩

/-- Second run of the replay scenario, against the state the first run left. -/

def replayDemoSecond : HandlerOut × ServerState :=
  zendeskRefundWorkflow 2000 failingOracles ⟨"POST", "5.6.7.8", some replayDemoBody⟩
    replayDemoFirst.2

/-- A request body with no decision override and no explicit key, whose
decide-endpoint call will fail. -/

def errDemoBody : WorkflowBody :=
  { witnessBody with decision_override := none, idempotency_key := none }

/-- First request of the normalization scenario: whitespace around the
ticket id, capitalised vendor, lower-case region, negative days. -/

def normDemoBody1 : WorkflowBody :=
  { ticket_id := some " T-1 ", vendor := some "Adobe", region := some "us",
    plan := none, days_since_purchase := some (-3 : ℚ), workflow_type := none,
    question := some "Please refund my plan", decision_override := some "no",
    idempotency_key := none }

/-- Second request of the normalization scenario: trimmed ticket id,
lower-case vendor, upper-case region, zero days, different question. -/

def normDemoBody2 : WorkflowBody :=
  { ticket_id := some "T-1", vendor := some "adobe", region := some "US",
    plan := none, days_since_purchase := some 0, workflow_type := none,
    question := some "A completely different question",
    decision_override := some "no", idempotency_key := none }

def digitsValFrom (i : Nat) (l : List Char) : Nat :=
  l.foldl (fun acc c => acc * 10 + (c.toNat - '0'.toNat)) i

/-! ### The cancellation policy evaluator (`src/lib/cancel-compute.js`) -/

/-- One vendor entry of the `v1_us_individual_cancel.json` rules table. -/

structure VendorRule where
  policy : String
  penalty : String
  notice_days : Nat
  notes : String
deriving DecidableEq

/-- The rules table loaded at module initialisation (its JSON content is
data, so the evaluator is parameterised over it). -/

structure CancelRules where
  rules_version : String
  vendors : List (String × VendorRule)
deriving DecidableEq

/-- The structured result object returned by `compute`: a verdict, a code and
a message are always present; the remaining fields appear only on some
branches (`none` models an absent JSON field). -/

structure ComputeResult where
  verdict : String
  code : String
  message : String
  rules_version : String
  vendor : Option String
  policy : Option String
  penalty : Option String
  notice_days : Option Nat
  supported_vendors : Option (List String)
deriving DecidableEq

/-- Insert a string into a sorted list (helper for `Object.keys(..).sort()`). -/

def insertSorted (s : String) : List String → List String
  | [] => [s]
  | t :: ts => if s ≤ t then s :: t :: ts else t :: insertSorted s ts

/-- `Object.keys(rules.vendors || {}).sort()`: the vendor names in ascending
lexicographic order. -/

def sortStrings : List String → List String
  | [] => []
  | s :: ss => insertSorted s (sortStrings ss)

/-- `validateInput({vendor, region, plan})` (lines 14-43): `UNKNOWN` error
objects for a missing/non-string or blank vendor, region or plan; `null`
(here `none`) when the input is valid. -/

def validateInput (rules : CancelRules) (vendor region plan : Option String) :
    Option ComputeResult :=
  match vendor with
  | none =>
    some
      { verdict := "UNKNOWN", code := "MISSING_VENDOR",
        message := "vendor is required and must be a non-empty string",
        rules_version := rules.rules_version, vendor := none, policy := none,
        penalty := none, notice_days := none, supported_vendors := none }
  | some v =>
    if jsTrim v = "" then
      some
        { verdict := "UNKNOWN", code := "MISSING_VENDOR",
          message := "vendor is required and must be a non-empty string",
          rules_version := rules.rules_version, vendor := none, policy := none,
          penalty := none, notice_days := none, supported_vendors := none }
    else
      match region with
      | none =>
        some
          { verdict := "UNKNOWN", code := "MISSING_REGION",
            message := "region is required and must be a non-empty string",
            rules_version := rules.rules_version, vendor := none, policy := none,
            penalty := none, notice_days := none, supported_vendors := none }
      | some r =>
        if jsTrim r = "" then
          some
            { verdict := "UNKNOWN", code := "MISSING_REGION",
              message := "region is required and must be a non-empty string",
              rules_version := rules.rules_version, vendor := none, policy := none,
              penalty := none, notice_days := none, supported_vendors := none }
        else
          match plan with
          | none =>
            some
              { verdict := "UNKNOWN", code := "MISSING_PLAN",
                message := "plan is required and must be a non-empty string",
                rules_version := rules.rules_version, vendor := none, policy := none,
                penalty := none, notice_days := none, supported_vendors := none }
          | some p =>
            if jsTrim p = "" then
              some
                { verdict := "UNKNOWN", code := "MISSING_PLAN",
                  message := "plan is required and must be a non-empty string",
                  rules_version := rules.rules_version, vendor := none,
                  policy := none, penalty := none, notice_days := none,
                  supported_vendors := none }
            else none

/-- `compute({vendor, region, plan})` (lines 50-136): lower-case and trim the
vendor, validate, check region/plan support, look the vendor up in the rules
table and map its `policy` to a verdict.  Total: every branch returns a
structured result.  (The JS reassignments `vendor = ...` and the reads of
the destructured fields are inlined.) -/

def compute (rules : CancelRules) (vendor0 region plan : Option String) :
    ComputeResult :=
  match validateInput rules (vendor0.map (fun s => jsTrim (jsToLower s))) region plan with
  | some validationError => validationError
  | none =>
    if region.getD "" ≠ "US" then
      { verdict := "UNKNOWN", code := "NON_US_REGION",
        message := "Region \"" ++ region.getD "" ++
          "\" is not supported. Currently only \"US\" is supported.",
        rules_version := rules.rules_version, vendor := none, policy := none,
        penalty := none, notice_days := none, supported_vendors := none }
    else if plan.getD "" ≠ "individual" then
      { verdict := "UNKNOWN", code := "NON_INDIVIDUAL_PLAN",
        message := "Plan \"" ++ plan.getD "" ++
          "\" is not supported. Currently only \"individual\" plans are supported.",
        rules_version := rules.rules_version, vendor := none, policy := none,
        penalty := none, notice_days := none, supported_vendors := none }
    else
      match mapGet ((vendor0.map (fun s => jsTrim (jsToLower s))).getD "") rules.vendors with
      | none =>
        { verdict := "UNKNOWN", code := "UNSUPPORTED_VENDOR",
          message := "Vendor \"" ++ (vendor0.map (fun s => jsTrim (jsToLower s))).getD "" ++
            "\" is not supported. Supported vendors: " ++
            String.intercalate ", " (sortStrings (rules.vendors.map Prod.fst)),
          rules_version := rules.rules_version,
          vendor := some ((vendor0.map (fun s => jsTrim (jsToLower s))).getD ""),
          policy := none, penalty := none, notice_days := none,
          supported_vendors := some (sortStrings (rules.vendors.map Prod.fst)) }
      | some vr =>
        if vr.policy = "free_cancel" then
          { verdict := "FREE_CANCEL", code := "NO_PENALTY",
            message := (vendor0.map (fun s => jsTrim (jsToLower s))).getD "" ++
              " can be cancelled without penalty. " ++ vr.notes,
            rules_version := rules.rules_version,
            vendor := some ((vendor0.map (fun s => jsTrim (jsToLower s))).getD ""),
            policy := some vr.policy, penalty := some vr.penalty,
            notice_days := some vr.notice_days, supported_vendors := none }
        else if vr.policy = "etf" then
          { verdict := "PENALTY", code := "EARLY_TERMINATION_FEE",
            message := (vendor0.map (fun s => jsTrim (jsToLower s))).getD "" ++
              " charges an early termination fee: " ++ vr.penalty ++ ". " ++ vr.notes,
            rules_version := rules.rules_version,
            vendor := some ((vendor0.map (fun s => jsTrim (jsToLower s))).getD ""),
            policy := some vr.policy, penalty := some vr.penalty,
            notice_days := some vr.notice_days, supported_vendors := none }
        else if vr.policy = "locked" then
          { verdict := "LOCKED", code := "CONTRACT_LOCKED",
            message := (vendor0.map (fun s => jsTrim (jsToLower s))).getD "" ++
              " does not allow mid-contract cancellation. " ++ vr.notes,
            rules_version := rules.rules_version,
            vendor := some ((vendor0.map (fun s => jsTrim (jsToLower s))).getD ""),
            policy := some vr.policy, penalty := some vr.penalty,
            notice_days := some vr.notice_days, supported_vendors := none }
        else
          { verdict := "UNKNOWN", code := "UNKNOWN_POLICY",
            message := "Unable to determine cancellation policy for " ++
              (vendor0.map (fun s => jsTrim (jsToLower s))).getD "" ++ ".",
            rules_version := rules.rules_version,
            vendor := some ((vendor0.map (fun s => jsTrim (jsToLower s))).getD ""),
            policy := none, penalty := none, notice_days := none,
            supported_vendors := none }

/-- A sample rules table for the C9 witness. -/

def sampleRules : CancelRules :=
  { rules_version := "v1",
    vendors := [("adobe", ⟨"etf", "50% of remaining contract", 0, "Annual plan."⟩),
                ("netflix", ⟨"free_cancel", "none", 0, "Cancel anytime."⟩)] }

section MapLemmas

variable {α : Type}

lemma mapGet_mapSet_self (k : String) (v : α) (s : List (String × α)) :
    mapGet k (mapSet k v s) = some v := by
  induction s with
  | nil => simp [mapGet, mapSet]
  | cons kv rest ih =>
    obtain ⟨k', v'⟩ := kv
    by_cases h : k' = k <;> simp [mapGet, mapSet, h, ih]

lemma mapGet_mapSet_ne (k j : String) (v : α) (s : List (String × α)) (h : j ≠ k) :
    mapGet j (mapSet k v s) = mapGet j s := by
  induction s with
  | nil => simp [mapGet, mapSet, Ne.symm h]
  | cons kv rest ih =>
    obtain ⟨k', v'⟩ := kv
    by_cases hk : k' = k
    · subst hk
      simp [mapGet, mapSet, Ne.symm h]
    · simp [mapGet, mapSet, hk, ih]

lemma length_mapSet_le (k : String) (v : α) (s : List (String × α)) :
    (mapSet k v s).length ≤ s.length + 1 := by
  induction s with
  | nil => simp [mapSet]
  | cons kv rest ih =>
    obtain ⟨k', v'⟩ := kv
    by_cases h : k' = k
    · simp [mapSet, h]
    · simp only [mapSet, if_neg h, List.length_cons]
      omega

lemma length_mapSet_of_found (k : String) (v : α) (s : List (String × α))
    (h : (mapGet k s).isSome) : (mapSet k v s).length = s.length := by
  induction s with
  | nil => simp [mapGet] at h
  | cons kv rest ih =>
    obtain ⟨k', v'⟩ := kv
    by_cases hk : k' = k
    · simp [mapSet, hk]
    · simp [mapGet, hk] at h
      simp [mapSet, hk, ih h]

end MapLemmas

lemma checkRateLimit_single_active (requests window t : Nat) (id : String) (c R : Nat)
    (h : ¬ R < t) :
    checkRateLimit requests window t id [(id, ⟨c, R⟩)] =
      (if requests < c + 1 then
        { allowed := false, limit := requests, remaining := 0, reset := R,
          retryAfter := some ((R - t + 999) / 1000) }
       else
        { allowed := true, limit := requests,
          remaining := (requests : Int) - ((c + 1 : Nat) : Int),
          reset := R, retryAfter := none },
       [(id, ⟨c + 1, R⟩)]) := by
  simp only [checkRateLimit, List.length_cons, List.length_nil]
  norm_num [mapGet, mapSet, h]
  split <;> simp_all [gt_iff_lt]

lemma checkRateLimit_empty (requests window t : Nat) (id : String) :
    checkRateLimit requests window t id [] =
      ({ allowed := true, limit := requests, remaining := (requests : Int) - 1,
         reset := t + window, retryAfter := none }, [(id, ⟨1, t + window⟩)]) := by
  simp [checkRateLimit, mapGet, mapSet]

lemma runCalls_active (N W : Nat) (id : String) (R : Nat) :
    ∀ (ts : List Nat) (c : Nat), (∀ t ∈ ts, ¬ R < t) →
      (runCalls N W id ts [(id, ⟨c, R⟩)]).2 = [(id, ⟨c + ts.length, R⟩)] ∧
      ∀ i, i < ts.length →
        ∃ ti, ts.get? i = some ti ∧
          (runCalls N W id ts [(id, ⟨c, R⟩)]).1.get? i =
            some (if N < c + i + 1 then
              { allowed := false, limit := N, remaining := 0, reset := R,
                retryAfter := some ((R - ti + 999) / 1000) }
             else
              { allowed := true, limit := N,
                remaining := (N : Int) - ((c + i + 1 : Nat) : Int),
                reset := R, retryAfter := none }) := by
  intro ts
  induction ts with
  | nil => intro c _; simp [runCalls]
  | cons t ts ih =>
    intro c hwin
    have ht : ¬ R < t := hwin t (List.mem_cons_self t ts)
    have hrest : ∀ u ∈ ts, ¬ R < u := fun u hu => hwin u (List.mem_cons_of_mem t hu)
    obtain ⟨ihstore, ihres⟩ := ih (c + 1) hrest
    constructor
    · simp only [runCalls, checkRateLimit_single_active N W t id c R ht]
      rw [ihstore]
      simp only [List.length_cons]
      ring_nf
    · intro i hi
      cases i with
      | zero =>
        refine ⟨t, rfl, ?_⟩
        simp only [runCalls, checkRateLimit_single_active N W t id c R ht]
        simp
      | succ i =>
        simp only [List.length_cons, Nat.succ_lt_succ_iff] at hi
        obtain ⟨ti, hti, hres⟩ := ihres i hi
        refine ⟨ti, by simpa using hti, ?_⟩
        simp only [runCalls, checkRateLimit_single_active N W t id c R ht]
        have e : c + 1 + i + 1 = c + (i + 1) + 1 := by ring
        rw [e] at hres
        simpa using hres

/-- C1: for a limiter created with `createRateLimiter(N, W)` (positive `N` and
`W`, per the construction contract) and any identity, a strictly sequential
run of calls whose timestamps all lie strictly inside the window opened by the
first call behaves as specified: call `i` (0-based) with `i < N` is allowed
with `remaining = N - (i+1)` (the values `N-1, N-2, …, 0` in order) and no
`retryAfter`; every call with `i ≥ N` is denied with `remaining = 0` and
`retryAfter = ceil((resetAt - now) / 1000)` where `resetAt = t0 + W`. -/

theorem rateLimiter_quota_boundary (N W : Nat) (hN : 0 < N) (hW : 0 < W)
    (id : String) (t0 : Nat) (ts : List Nat)
    (hseq : List.Sorted (· ≤ ·) (t0 :: ts)) (hwin : ∀ t ∈ ts, t < t0 + W) :
    ∀ i, i < (t0 :: ts).length →
      (i < N →
        (runCalls N W id (t0 :: ts) []).1.get? i =
          some { allowed := true, limit := N,
                 remaining := (N : Int) - ((i + 1 : Nat) : Int),
                 reset := t0 + W, retryAfter := none }) ∧
      (N ≤ i →
        ∃ ti, (t0 :: ts).get? i = some ti ∧
          (runCalls N W id (t0 :: ts) []).1.get? i =
            some { allowed := false, limit := N, remaining := 0, reset := t0 + W,
                   retryAfter := some ((t0 + W - ti + 999) / 1000) }) := by
  have hwin' : ∀ t ∈ ts, ¬ (t0 + W) < t := fun t htm => by
    have := hwin t htm; omega
  obtain ⟨_, hres⟩ := runCalls_active N W id (t0 + W) ts 1 hwin'
  intro i hi
  cases i with
  | zero =>
    constructor
    · intro _
      simp [runCalls, checkRateLimit_empty]
    · intro hle; omega
  | succ i =>
    simp only [List.length_cons, Nat.succ_lt_succ_iff] at hi
    obtain ⟨ti, hti, hresi⟩ := hres i hi
    constructor
    · intro hlt
      have hcount : ¬ N < 1 + i + 1 := by omega
      rw [if_neg hcount] at hresi
      have e : 1 + i + 1 = i + 1 + 1 := by ring
      rw [e] at hresi
      simp only [runCalls, checkRateLimit_empty, List.get?_cons_succ]
      exact hresi
    · intro hle
      have hcount : N < 1 + i + 1 := by omega
      rw [if_pos hcount] at hresi
      refine ⟨ti, by simpa using hti, ?_⟩
      simp only [runCalls, checkRateLimit_empty, List.get?_cons_succ]
      exact hresi

/-- Witness for C1 at `N = 2`, `W = 1000`, calls at times `0, 1, 2`. -/

theorem rateLimiter_quota_boundary_witness :
    (0 < 2 ∧ 0 < 1000 ∧ List.Sorted (· ≤ ·) [0, 1, 2] ∧ ∀ t ∈ [1, 2], t < 0 + 1000) ∧
    (∀ i, i < ([0, 1, 2] : List Nat).length →
      (i < 2 →
        (runCalls 2 1000 "1.2.3.4" [0, 1, 2] []).1.get? i =
          some { allowed := true, limit := 2,
                 remaining := (2 : Int) - ((i + 1 : Nat) : Int),
                 reset := 0 + 1000, retryAfter := none }) ∧
      (2 ≤ i →
        ∃ ti, ([0, 1, 2] : List Nat).get? i = some ti ∧
          (runCalls 2 1000 "1.2.3.4" [0, 1, 2] []).1.get? i =
            some { allowed := false, limit := 2, remaining := 0, reset := 0 + 1000,
                   retryAfter := some ((0 + 1000 - ti + 999) / 1000) })) :=
  ⟨⟨by decide, by decide, by decide, by decide⟩,
   rateLimiter_quota_boundary 2 1000 (by decide) (by decide) "1.2.3.4" 0 [1, 2]
     (by decide) (by decide)⟩

/-- C4 counterexample: at the boundary instant `now = resetAt` the claim's
validity invariant `now < resetAt` no longer holds (`¬ 1000 < 1000`), so the
claim predicts a fresh record (`count = 1`, `resetAt = now + windowMs`) and an
allowed result with `remaining = requests - 1`; but `checkRateLimit` only
resets when `resetAt < now`, so here it increments the old record and denies
the call. -/

theorem rateLimiter_rollover_cex :
    ¬ (1000 < 1000) ∧
    (checkRateLimit 1 1000 1000 "1.2.3.4" [("1.2.3.4", ⟨1, 1000⟩)]).1.allowed = false ∧
    (checkRateLimit 1 1000 1000 "1.2.3.4" [("1.2.3.4", ⟨1, 1000⟩)]).2 =
      [("1.2.3.4", ⟨2, 1000⟩)] := by decide

/-- C4 (amended): once a stored record is expired in the sense the code tests
(`resetAt < now`, i.e. `resetAt` has strictly passed), the next `check` call
replaces the record rather than incrementing it: it installs a fresh record
with `count = 1` and `resetAt = now + windowMs` and returns `allowed: true`
with `remaining = requests - 1`, exactly as a first-ever call, regardless of
the stored `count`. -/

theorem rateLimiter_window_rollover (N W now : Nat) (id : String)
    (s : List (String × RLRecord)) (r : RLRecord)
    (hsize : s.length ≤ 10000) (hfound : mapGet id s = some r)
    (hexp : r.resetAt < now) :
    checkRateLimit N W now id s =
      ({ allowed := true, limit := N, remaining := (N : Int) - 1,
         reset := now + W, retryAfter := none }, mapSet id ⟨1, now + W⟩ s) ∧
    mapGet id (checkRateLimit N W now id s).2 = some ⟨1, now + W⟩ := by
  have hnosweep : ¬ s.length > 10000 := by omega
  have h1 : checkRateLimit N W now id s =
      ({ allowed := true, limit := N, remaining := (N : Int) - 1,
         reset := now + W, retryAfter := none }, mapSet id ⟨1, now + W⟩ s) := by
    simp only [checkRateLimit, if_neg hnosweep, hfound, if_pos hexp]
  exact ⟨h1, by rw [h1]; exact mapGet_mapSet_self id ⟨1, now + W⟩ s⟩

/-- Witness for C4 (amended): a record with `resetAt = 5` checked at
`now = 6` is replaced and the call is allowed like a first-ever call. -/

theorem rateLimiter_window_rollover_witness :
    (([("a", (⟨7, 5⟩ : RLRecord))] : List (String × RLRecord)).length ≤ 10000 ∧
     mapGet "a" [("a", (⟨7, 5⟩ : RLRecord))] = some ⟨7, 5⟩ ∧ 5 < 6) ∧
    (checkRateLimit 3 10 6 "a" [("a", ⟨7, 5⟩)] =
      ({ allowed := true, limit := 3, remaining := (3 : Int) - 1,
         reset := 6 + 10, retryAfter := none }, mapSet "a" ⟨1, 6 + 10⟩ [("a", ⟨7, 5⟩)]) ∧
     mapGet "a" (checkRateLimit 3 10 6 "a" [("a", ⟨7, 5⟩)]).2 = some ⟨1, 6 + 10⟩) :=
  ⟨⟨by decide, by decide, by decide⟩,
   rateLimiter_window_rollover 3 10 6 "a" [("a", ⟨7, 5⟩)] ⟨7, 5⟩
     (by decide) (by decide) (by decide)⟩

lemma bigStore_length : bigStore.length = 10001 := by
  simp [bigStore]

lemma bigStore_snd {kv : String × RLRecord} (h : kv ∈ bigStore) : kv.2 = ⟨1, 100⟩ := by
  simp only [bigStore, List.mem_map] at h
  obtain ⟨i, _, rfl⟩ := h
  rfl

lemma bigStore_cons : bigStore = ("0", ⟨1, 100⟩) :: ((List.range 10000).map
    (fun i => (Nat.repr (Nat.succ i), (⟨1, 100⟩ : RLRecord)))) := by
  have h : List.range 10001 = 0 :: (List.range 10000).map Nat.succ :=
    List.range_succ_eq_map 10000
  simp only [bigStore, h, List.map_cons, List.map_map]
  rfl

lemma sweepExpired_bigStore : sweepExpired 100 bigStore = bigStore := by
  apply List.filter_eq_self.mpr
  intro kv hkv
  have h2 := bigStore_snd hkv
  simp [h2]

lemma bigStore_check_store :
    (checkRateLimit 5 1000 100 "0" bigStore).2.length = 10001 := by
  have hsweep : (if bigStore.length > 10000 then sweepExpired 100 bigStore
      else bigStore) = bigStore := by
    rw [bigStore_length, if_pos (by norm_num), sweepExpired_bigStore]
  have hget : mapGet "0" bigStore = some ⟨1, 100⟩ := by
    rw [bigStore_cons]
    simp [mapGet, show Nat.repr 0 = "0" from rfl]
  simp only [checkRateLimit, hsweep, hget]
  norm_num
  rw [length_mapSet_of_found _ _ _ (by rw [hget]; rfl)]
  exact bigStore_length

/-- C5 counterexample: a table of 10001 records that all expire exactly at
`now = 100`.  The sweep removes none of them (none satisfies
`resetAt < now`), yet none is "still valid" in the claim's sense
(`now < resetAt`), so after the sweeping call the table still holds 10001
records while the claim's bound (number of still-valid records plus newly
inserted ones, here 0 + 1) is 1. -/

theorem rateLimiter_sweep_size_cex :
    bigStore.length > 10000 ∧
    ¬ ((checkRateLimit 5 1000 100 "0" bigStore).2.length ≤
        (bigStore.filter (fun kv => decide (100 < kv.2.resetAt))).length + 1) := by
  constructor
  · rw [bigStore_length]; norm_num
  · have hvalid : bigStore.filter (fun kv => decide (100 < kv.2.resetAt)) = [] := by
      apply List.filter_eq_nil_iff.mpr
      intro kv hkv
      have h2 := bigStore_snd hkv
      simp [h2]
    rw [bigStore_check_store, hvalid]
    norm_num

/-- C5 (amended): whenever the table holds more than 10000 entries at the
start of a `check` call, the sweep performed before processing the request
removes exactly the records whose `resetAt` has already strictly passed
(`resetAt < now`); no still-valid record (`now < resetAt`) is removed, and
after the call the table size is at most the number of unexpired records
(`now ≤ resetAt`) plus one possibly newly inserted record. -/

theorem rateLimiter_sweep_safety (N W now : Nat) (id : String)
    (s : List (String × RLRecord)) (hbig : s.length > 10000) :
    (∀ kv ∈ s, (kv ∉ sweepExpired now s ↔ kv.2.resetAt < now)) ∧
    (∀ kv ∈ s, now < kv.2.resetAt → kv ∈ sweepExpired now s) ∧
    (checkRateLimit N W now id s).2.length ≤
      (s.filter (fun kv => decide (now ≤ kv.2.resetAt))).length + 1 := by
  have hmem : ∀ kv ∈ s, (kv ∈ sweepExpired now s ↔ ¬ kv.2.resetAt < now) := by
    intro kv hkv
    simp [sweepExpired, List.mem_filter, hkv]
  refine ⟨?_, ?_, ?_⟩
  · intro kv hkv
    simpa [not_not] using not_congr (hmem kv hkv)
  · intro kv hkv hvalid
    exact (hmem kv hkv).mpr (by omega)
  · have hpred : sweepExpired now s =
        s.filter (fun kv => decide (now ≤ kv.2.resetAt)) := by
      apply List.filter_congr
      intro kv _
      by_cases h : kv.2.resetAt < now
      · simp [h, Nat.not_le.mpr h]
      · simp [h, Nat.not_lt.mp h]
    have hsweeplen : (sweepExpired now s).length =
        (s.filter (fun kv => decide (now ≤ kv.2.resetAt))).length := by rw [hpred]
    have hb : ∀ (v : RLRecord),
        (mapSet id v (sweepExpired now s)).length ≤
          (s.filter (fun kv => decide (now ≤ kv.2.resetAt))).length + 1 :=
      fun v => le_trans (length_mapSet_le _ _ _) (by omega)
    simp only [checkRateLimit, if_pos hbig]
    split
    · exact hb _
    · split
      · exact hb _
      · split
        · exact hb _
        · exact hb _

/-- Witness for C5 (amended), applied to the 10001-entry table. -/

theorem rateLimiter_sweep_safety_witness :
    bigStore.length > 10000 ∧
    ((∀ kv ∈ bigStore, (kv ∉ sweepExpired 100 bigStore ↔ kv.2.resetAt < 100)) ∧
     (∀ kv ∈ bigStore, 100 < kv.2.resetAt → kv ∈ sweepExpired 100 bigStore) ∧
     (checkRateLimit 5 1000 100 "x" bigStore).2.length ≤
       (bigStore.filter (fun kv => decide (100 ≤ kv.2.resetAt))).length + 1) :=
  ⟨by rw [bigStore_length]; norm_num,
   rateLimiter_sweep_safety 5 1000 100 "x" bigStore (by rw [bigStore_length]; norm_num)⟩

/-- C6: a `check` call for identity `i` leaves the stored record of every
other identity `j ≠ i` unchanged as long as the sweep threshold is not
crossed (`size ≤ 10000`); and two limiter instances created by separate
`createRateLimiter` calls share no state: a call on the first instance leaves
the second instance's table untouched, so any later call on the second
instance returns exactly what it would have returned anyway. -/

theorem rateLimiter_independent_keys (N W now : Nat) (i j : String) (hne : j ≠ i)
    (s : List (String × RLRecord)) (hsize : s.length ≤ 10000)
    (N' W' now' : Nat) (k : String) (p : LimiterPair) :
    mapGet j (checkRateLimit N W now i s).2 = mapGet j s ∧
    (checkOnA N W now i p).2.storeB = p.storeB ∧
    (checkOnB N' W' now' k (checkOnA N W now i p).2).1 = (checkOnB N' W' now' k p).1 := by
  refine ⟨?_, rfl, rfl⟩
  have hnosweep : ¬ s.length > 10000 := by omega
  simp only [checkRateLimit, if_neg hnosweep]
  split
  · exact mapGet_mapSet_ne i j _ s hne
  · split
    · exact mapGet_mapSet_ne i j _ s hne
    · split
      · exact mapGet_mapSet_ne i j _ s hne
      · exact mapGet_mapSet_ne i j _ s hne

/-- Witness for C6 with two identities and a concrete limiter pair. -/

theorem rateLimiter_independent_keys_witness :
    (("b" : String) ≠ "a" ∧
     ([("b", (⟨2, 50⟩ : RLRecord))] : List (String × RLRecord)).length ≤ 10000) ∧
    (mapGet "b" (checkRateLimit 3 10 7 "a" [("b", ⟨2, 50⟩)]).2 =
       mapGet "b" [("b", ⟨2, 50⟩)] ∧
     (checkOnA 3 10 7 "a" ⟨[], [("c", ⟨1, 9⟩)]⟩).2.storeB = [("c", ⟨1, 9⟩)] ∧
     (checkOnB 4 20 8 "c" (checkOnA 3 10 7 "a" ⟨[], [("c", ⟨1, 9⟩)]⟩).2).1 =
       (checkOnB 4 20 8 "c" ⟨[], [("c", ⟨1, 9⟩)]⟩).1) :=
  ⟨⟨by decide, by decide⟩,
   rateLimiter_independent_keys 3 10 7 "a" "b" (by decide) [("b", ⟨2, 50⟩)]
     (by decide) 4 20 8 "c" ⟨[], [("c", ⟨1, 9⟩)]⟩⟩

lemma mapGet_eq_none_of_not_mem {α : Type} (k : String) (c : List (String × α))
    (h : k ∉ c.map Prod.fst) : mapGet k c = none := by
  induction c with
  | nil => simp [mapGet]
  | cons kv rest ih =>
    obtain ⟨k', v'⟩ := kv
    simp only [List.map_cons, List.mem_cons, not_or] at h
    simp only [mapGet]
    rw [if_neg (fun hh => h.1 hh.symm)]
    exact ih h.2

lemma mapGet_prune_of_live (now : Nat) (k : String) (c : List (String × IdemEntry))
    (e : IdemEntry) (hget : mapGet k c = some e) (hlive : ¬ e.expiresAt ≤ now) :
    mapGet k (pruneIdempotencyCache now c) = some e := by
  induction c with
  | nil => simp [mapGet] at hget
  | cons kv rest ih =>
    obtain ⟨k', e'⟩ := kv
    by_cases hk : k' = k
    · subst hk
      simp only [mapGet, if_pos rfl] at hget
      obtain rfl : e' = e := by injection hget
      simp [pruneIdempotencyCache, mapGet, hlive]
    · simp only [mapGet, if_neg hk] at hget
      by_cases hkeep : e'.expiresAt ≤ now
      · simpa [pruneIdempotencyCache, mapGet, hkeep] using ih hget
      · simpa [pruneIdempotencyCache, mapGet, hkeep, hk] using ih hget

lemma mapGet_none_prune (now : Nat) (k : String) (c : List (String × IdemEntry))
    (hget : mapGet k c = none) :
    mapGet k (pruneIdempotencyCache now c) = none := by
  induction c with
  | nil => simp [pruneIdempotencyCache, mapGet]
  | cons kv rest ih =>
    obtain ⟨k', e'⟩ := kv
    by_cases hk : k' = k
    · simp [mapGet, hk] at hget
    · simp only [mapGet, if_neg hk] at hget
      by_cases hkeep : e'.expiresAt ≤ now
      · simpa [pruneIdempotencyCache, mapGet, hkeep] using ih hget
      · simpa [pruneIdempotencyCache, mapGet, hkeep, hk] using ih hget

lemma mapGet_prune_of_expired (now : Nat) (k : String) (c : List (String × IdemEntry))
    (e : IdemEntry) (hnodup : (c.map Prod.fst).Nodup)
    (hget : mapGet k c = some e) (hexp : e.expiresAt ≤ now) :
    mapGet k (pruneIdempotencyCache now c) = none := by
  induction c with
  | nil => simp [mapGet] at hget
  | cons kv rest ih =>
    obtain ⟨k', e'⟩ := kv
    simp only [List.map_cons, List.nodup_cons] at hnodup
    obtain ⟨hknot, hnodup'⟩ := hnodup
    by_cases hk : k' = k
    · subst hk
      simp only [mapGet, if_pos rfl] at hget
      obtain rfl : e' = e := by injection hget
      have hrest : mapGet k' rest = none := mapGet_eq_none_of_not_mem k' rest hknot
      have := mapGet_none_prune now k' rest hrest
      simpa [pruneIdempotencyCache, mapGet, hexp] using this
    · simp only [mapGet, if_neg hk] at hget
      by_cases hkeep : e'.expiresAt ≤ now
      · simpa [pruneIdempotencyCache, mapGet, hkeep] using ih hnodup' hget
      · simpa [pruneIdempotencyCache, mapGet, hkeep, hk] using ih hnodup' hget

lemma derivedRequestKey_eq_of_days (b : WorkflowBody) (d : Nat)
    (hd : parseDays b.days_since_purchase = some d) :
    derivedRequestKey b =
      jsOrS (normalizeText b.idempotency_key 200)
        (buildIdempotencyKey (normalizeText b.ticket_id 120)
          (jsOrS (jsToLower (normalizeText b.workflow_type 40)) "refund")
          (jsToLower (normalizeText b.vendor 120)) d
          (jsOrS (jsToUpper (normalizeText b.region 20)) "US")
          (jsOrS (jsToLower (normalizeText b.plan 40)) "individual")) := by
  simp [derivedRequestKey, hd]

lemma workflow_replay_eq (now : Nat) (o : Oracles) (req : WorkflowReq) (b : WorkflowBody)
    (st : ServerState) (e : IdemEntry)
    (hm : req.method = "POST") (hb : req.body = some b)
    (hallowed : (checkRateLimit 60 60000 now req.clientIp st.rateStore).1.allowed = true)
    (hticket : normalizeText b.ticket_id 120 ≠ "")
    (hvendor : jsToLower (normalizeText b.vendor 120) ≠ "")
    (hdays : (parseDays b.days_since_purchase).isSome)
    (hwf : jsOrS (jsToLower (normalizeText b.workflow_type 40)) "refund" = "refund")
    (hlook : cachedLookup (derivedRequestKey b) now
        (pruneIdempotencyCache now st.idemCache) = some e) :
    zendeskRefundWorkflow now o req st =
      ({ status := 200, xIdempotentReplay := true,
         body := BodyOut.ok { e.response with idempotent_replay := true } },
       { rateStore := (checkRateLimit 60 60000 now req.clientIp st.rateStore).2,
         idemCache := pruneIdempotencyCache now st.idemCache }) := by
  obtain ⟨d, hd⟩ := Option.isSome_iff_exists.mp hdays
  rw [derivedRequestKey_eq_of_days b d hd] at hlook
  rw [hwf] at hlook
  simp only [zendeskRefundWorkflow, hm, hb, hallowed, hd, hwf, hlook, hticket, hvendor,
    ne_eq, not_false_eq_true, not_true_eq_false, false_or, or_false, if_false, if_true,
    Bool.true_eq_false, reduceIte]
  rw [if_neg (by decide : ¬ (("POST" : String) = "OPTIONS"))]

lemma workflow_cases (now : Nat) (o : Oracles) (req : WorkflowReq) (st : ServerState) :
    ((zendeskRefundWorkflow now o req st).1.status ≠ 200 ∧
     (zendeskRefundWorkflow now o req st).1.xIdempotentReplay = false ∧
     ((zendeskRefundWorkflow now o req st).2.idemCache = st.idemCache ∨
      (zendeskRefundWorkflow now o req st).2.idemCache =
        pruneIdempotencyCache now st.idemCache)) ∨
    (∃ b e k, req.body = some b ∧ k = derivedRequestKey b ∧
      cachedLookup k now (pruneIdempotencyCache now st.idemCache) = some e ∧
      zendeskRefundWorkflow now o req st =
        ({ status := 200, xIdempotentReplay := true,
           body := BodyOut.ok { e.response with idempotent_replay := true } },
         { rateStore := (checkRateLimit 60 60000 now req.clientIp st.rateStore).2,
           idemCache := pruneIdempotencyCache now st.idemCache })) ∨
    (∃ b R k, req.body = some b ∧ k = derivedRequestKey b ∧
      R.idempotent_replay = false ∧
      R.idempotency_key = k ∧
      zendeskRefundWorkflow now o req st =
        ({ status := 200, xIdempotentReplay := false, body := BodyOut.ok R },
         { rateStore := (checkRateLimit 60 60000 now req.clientIp st.rateStore).2,
           idemCache := mapSet k
             { expiresAt := now + IDEMPOTENCY_TTL_MS, response := R }
             (pruneIdempotencyCache now st.idemCache) })) := by
  generalize hZ : zendeskRefundWorkflow now o req st = Z
  simp only [zendeskRefundWorkflow] at hZ
  split at hZ
  · exact Or.inl ⟨by rw [← hZ]; simp, by rw [← hZ], Or.inl (by rw [← hZ])⟩
  · split at hZ
    · exact Or.inl ⟨by rw [← hZ]; simp, by rw [← hZ], Or.inl (by rw [← hZ])⟩
    · split at hZ
      · exact Or.inl ⟨by rw [← hZ]; simp, by rw [← hZ], Or.inl (by rw [← hZ])⟩
      · split at hZ
        · exact Or.inl ⟨by rw [← hZ]; simp, by rw [← hZ], Or.inl (by rw [← hZ])⟩
        · rename_i b heqbody
          split at hZ
          · exact Or.inl ⟨by rw [← hZ]; simp, by rw [← hZ], Or.inl (by rw [← hZ])⟩
          · split at hZ
            · exact Or.inl ⟨by rw [← hZ]; simp, by rw [← hZ], Or.inl (by rw [← hZ])⟩
            · rename_i d heqdays
              have hkey := derivedRequestKey_eq_of_days b d heqdays
              split at hZ
              · exact Or.inl ⟨by rw [← hZ]; simp, by rw [← hZ], Or.inl (by rw [← hZ])⟩
              · split at hZ
                · rename_i cached heqlook
                  exact Or.inr (Or.inl ⟨b, cached, _, heqbody, hkey.symm, heqlook, hZ.symm⟩)
                · rename_i heqlook
                  split at hZ
                  · exact Or.inl ⟨by rw [← hZ]; simp, by rw [← hZ], Or.inr (by rw [← hZ])⟩
                  · split at hZ
                    · exact Or.inl ⟨by rw [← hZ]; simp, by rw [← hZ], Or.inr (by rw [← hZ])⟩
                    · exact Or.inr (Or.inr ⟨b, _, _, heqbody, hkey.symm, rfl, rfl, hZ.symm⟩)

/-- C2: for a request that reaches the idempotency lookup with key `k` while
the cache holds the entry `(k, { expiresAt := E, response := R })`: if the
lookup happens strictly before `E`, the handler returns status 200 with the
`X-Idempotent-Replay` header, the body is exactly `R` with only the
`idempotent_replay` field set to `true`, the outcome does not depend on the
decide/policy oracles at all (the decision and policy logic are not
re-executed), and the entry survives the prune; if the lookup happens at or
after `E`, the entry has been pruned (a miss) and the handler never serves a
replay. -/

theorem idempotency_replay_before_expiry
    (now E : Nat) (R : ResponsePayload) (k : String) (o : Oracles)
    (req : WorkflowReq) (b : WorkflowBody) (st : ServerState)
    (hm : req.method = "POST") (hb : req.body = some b)
    (hallowed : (checkRateLimit 60 60000 now req.clientIp st.rateStore).1.allowed = true)
    (hticket : normalizeText b.ticket_id 120 ≠ "")
    (hvendor : jsToLower (normalizeText b.vendor 120) ≠ "")
    (hdays : (parseDays b.days_since_purchase).isSome)
    (hwf : jsOrS (jsToLower (normalizeText b.workflow_type 40)) "refund" = "refund")
    (hkey : derivedRequestKey b = k)
    (hnodup : (st.idemCache.map Prod.fst).Nodup)
    (hentry : mapGet k st.idemCache = some ⟨E, R⟩) :
    (now < E →
      (∀ o' : Oracles, zendeskRefundWorkflow now o' req st =
        ({ status := 200, xIdempotentReplay := true,
           body := BodyOut.ok { R with idempotent_replay := true } },
         { rateStore := (checkRateLimit 60 60000 now req.clientIp st.rateStore).2,
           idemCache := pruneIdempotencyCache now st.idemCache })) ∧
      mapGet k (pruneIdempotencyCache now st.idemCache) = some ⟨E, R⟩) ∧
    (E ≤ now →
      mapGet k (pruneIdempotencyCache now st.idemCache) = none ∧
      (zendeskRefundWorkflow now o req st).1.xIdempotentReplay = false) := by
  constructor
  · intro hlt
    have hpr : mapGet k (pruneIdempotencyCache now st.idemCache) = some ⟨E, R⟩ :=
      mapGet_prune_of_live now k st.idemCache ⟨E, R⟩ hentry (by simp; omega)
    have hlook : cachedLookup (derivedRequestKey b) now
        (pruneIdempotencyCache now st.idemCache) = some ⟨E, R⟩ := by
      rw [hkey]
      simp [cachedLookup, hpr, hlt]
    refine ⟨fun o' => ?_, hpr⟩
    exact workflow_replay_eq now o' req b st ⟨E, R⟩ hm hb hallowed hticket hvendor
      hdays hwf hlook
  · intro hle
    have hpr : mapGet k (pruneIdempotencyCache now st.idemCache) = none :=
      mapGet_prune_of_expired now k st.idemCache ⟨E, R⟩ hnodup hentry (by simpa using hle)
    refine ⟨hpr, ?_⟩
    rcases workflow_cases now o req st with
      ⟨_, hrep, _⟩ | ⟨b', e, k', hb', hk', hlook, heq⟩ | ⟨b', R', k', hb', hk', _, _, heq⟩
    · exact hrep
    · obtain rfl : b' = b := by rw [hb] at hb'; injection hb' with h; exact h.symm
      rw [hk', hkey] at hlook
      rw [show cachedLookup k now (pruneIdempotencyCache now st.idemCache) = none by
        simp [cachedLookup, hpr]] at hlook
      cases hlook
    · rw [heq]

/-- Witness for C2 at a concrete cache entry, before and at expiry. -/

theorem idempotency_replay_before_expiry_witness :
    ((⟨"POST", "ip", some witnessBody⟩ : WorkflowReq).method = "POST" ∧
     (checkRateLimit 60 60000 50 "ip" ([] : List (String × RLRecord))).1.allowed = true ∧
     normalizeText witnessBody.ticket_id 120 ≠ "" ∧
     derivedRequestKey witnessBody = "K" ∧
     mapGet "K" [("K", (⟨100, sampleResponse⟩ : IdemEntry))] = some ⟨100, sampleResponse⟩) ∧
    ((50 < 100 →
      (∀ o' : Oracles, zendeskRefundWorkflow 50 o' ⟨"POST", "ip", some witnessBody⟩
          ⟨[], [("K", ⟨100, sampleResponse⟩)]⟩ =
        ({ status := 200, xIdempotentReplay := true,
           body := BodyOut.ok { sampleResponse with idempotent_replay := true } },
         { rateStore := (checkRateLimit 60 60000 50 "ip"
             (⟨[], [("K", ⟨100, sampleResponse⟩)]⟩ : ServerState).rateStore).2,
           idemCache := pruneIdempotencyCache 50
             (⟨[], [("K", ⟨100, sampleResponse⟩)]⟩ : ServerState).idemCache })) ∧
      mapGet "K" (pruneIdempotencyCache 50
        (⟨[], [("K", ⟨100, sampleResponse⟩)]⟩ : ServerState).idemCache) =
          some ⟨100, sampleResponse⟩) ∧
     (100 ≤ 50 →
      mapGet "K" (pruneIdempotencyCache 50
        (⟨[], [("K", ⟨100, sampleResponse⟩)]⟩ : ServerState).idemCache) = none ∧
      (zendeskRefundWorkflow 50 failingOracles ⟨"POST", "ip", some witnessBody⟩
        ⟨[], [("K", ⟨100, sampleResponse⟩)]⟩).1.xIdempotentReplay = false)) :=
  ⟨⟨rfl, by decide, by decide, by decide, by decide⟩,
   idempotency_replay_before_expiry 50 100 sampleResponse "K" failingOracles
     ⟨"POST", "ip", some witnessBody⟩ witnessBody ⟨[], [("K", ⟨100, sampleResponse⟩)]⟩
     rfl rfl (by decide) (by decide) (by decide) (by decide) (by decide) (by decide)
     (by decide) (by decide)⟩

/-- C2 counterexample: the claim says a replayed request "receives exactly R
(deep-equal to the first response)" while also being marked with the boolean
replay field.  In the code the replayed body is the stored response spread
with `idempotent_replay: true`, while the first response carried
`idempotent_replay: false`, so the second response is not deep-equal to the
first: the two bodies differ (in exactly that marker field). -/

theorem idempotency_replay_cex :
    replayDemoFirst.1.status = 200 ∧
    replayDemoFirst.1.xIdempotentReplay = false ∧
    replayDemoSecond.1.status = 200 ∧
    replayDemoSecond.1.xIdempotentReplay = true ∧
    replayDemoSecond.1.body ≠ replayDemoFirst.1.body := by decide

/-- C7 counterexample: a request supplying the explicit idempotency key
`" K "` (with surrounding whitespace) is stored under the trimmed key `"K"`,
not under the supplied key verbatim. -/

theorem explicit_key_verbatim_cex :
    (zendeskRefundWorkflow 1000 failingOracles
      ⟨"POST", "1.2.3.4", some { witnessBody with idempotency_key := some " K " }⟩
      ⟨[], []⟩).2.idemCache.map Prod.fst = ["K"] ∧
    normalizeText (some " K ") 200 = "K" ∧
    (" K " : String) ≠ "K" := by decide

/-- C7 (amended): the supplied explicit key is used after `normalizeText`
(trim and truncate to 200 characters, falling back to the derived key when
the result is empty); a supplied key that is already trimmed, at most 200
characters and non-empty is used character-for-character as the cache key of
both the lookup (a hit on it is replayed) and the store (a fresh 200 result
is stored under it). -/

theorem explicit_key_verbatim
    (now : Nat) (o : Oracles) (req : WorkflowReq) (b : WorkflowBody)
    (st : ServerState) (s : String)
    (hm : req.method = "POST") (hb : req.body = some b)
    (hallowed : (checkRateLimit 60 60000 now req.clientIp st.rateStore).1.allowed = true)
    (hticket : normalizeText b.ticket_id 120 ≠ "")
    (hvendor : jsToLower (normalizeText b.vendor 120) ≠ "")
    (hdays : (parseDays b.days_since_purchase).isSome)
    (hwf : jsOrS (jsToLower (normalizeText b.workflow_type 40)) "refund" = "refund")
    (hkeyfield : b.idempotency_key = some s)
    (htrim : jsTrim s = s) (hlen : jsTake s 200 = s) (hne : s ≠ "") :
    normalizeText b.idempotency_key 200 = s ∧
    derivedRequestKey b = s ∧
    ((∃ e, cachedLookup s now (pruneIdempotencyCache now st.idemCache) = some e ∧
        zendeskRefundWorkflow now o req st =
          ({ status := 200, xIdempotentReplay := true,
             body := BodyOut.ok { e.response with idempotent_replay := true } },
           { rateStore := (checkRateLimit 60 60000 now req.clientIp st.rateStore).2,
             idemCache := pruneIdempotencyCache now st.idemCache })) ∨
     ((zendeskRefundWorkflow now o req st).1.xIdempotentReplay = false ∧
      ∀ R, (zendeskRefundWorkflow now o req st).1.status = 200 →
        (zendeskRefundWorkflow now o req st).1.body = BodyOut.ok R →
        (zendeskRefundWorkflow now o req st).2.idemCache =
          mapSet s { expiresAt := now + IDEMPOTENCY_TTL_MS, response := R }
            (pruneIdempotencyCache now st.idemCache))) := by
  have hnorm : normalizeText b.idempotency_key 200 = s := by
    rw [hkeyfield]
    show jsTake (jsTrim s) 200 = s
    rw [htrim, hlen]
  obtain ⟨d, hd⟩ := Option.isSome_iff_exists.mp hdays
  have hkeyd : derivedRequestKey b = s := by
    rw [derivedRequestKey_eq_of_days b d hd, hnorm]
    simp [jsOrS, hne]
  refine ⟨hnorm, hkeyd, ?_⟩
  cases hcl : cachedLookup s now (pruneIdempotencyCache now st.idemCache) with
  | some e =>
    exact Or.inl ⟨e, rfl, workflow_replay_eq now o req b st e hm hb hallowed hticket
      hvendor hdays hwf (by rw [hkeyd]; exact hcl)⟩
  | none =>
    refine Or.inr ?_
    rcases workflow_cases now o req st with
      ⟨hst, hrep, _⟩ | ⟨b', e, k', hb', hk', hlook, heq⟩ |
      ⟨b', R', k', hb', hk', hRrep, hRkey, heq⟩
    · exact ⟨hrep, fun R h200 _ => absurd h200 hst⟩
    · obtain rfl : b' = b := by rw [hb] at hb'; injection hb' with h; exact h.symm
      rw [hk', hkeyd, hcl] at hlook
      cases hlook
    · obtain rfl : b' = b := by rw [hb] at hb'; injection hb' with h; exact h.symm
      rw [hkeyd] at hk'
      subst hk'
      constructor
      · rw [heq]
      · intro R h200 hbody
        rw [heq] at hbody
        simp only [BodyOut.ok.injEq] at hbody
        subst hbody
        rw [heq]

/-- Witness for C7 (amended): explicit key `"K"`, used verbatim. -/

theorem explicit_key_verbatim_witness :
    (witnessBody.idempotency_key = some "K" ∧ jsTrim "K" = "K" ∧
     jsTake "K" 200 = "K" ∧ ("K" : String) ≠ "") ∧
    (normalizeText witnessBody.idempotency_key 200 = "K" ∧
     derivedRequestKey witnessBody = "K" ∧
     ((∃ e, cachedLookup "K" 50 (pruneIdempotencyCache 50
          (⟨[], [("K", ⟨100, sampleResponse⟩)]⟩ : ServerState).idemCache) = some e ∧
        zendeskRefundWorkflow 50 failingOracles ⟨"POST", "ip", some witnessBody⟩
            ⟨[], [("K", ⟨100, sampleResponse⟩)]⟩ =
          ({ status := 200, xIdempotentReplay := true,
             body := BodyOut.ok { e.response with idempotent_replay := true } },
           { rateStore := (checkRateLimit 60 60000 50 "ip"
               (⟨[], [("K", ⟨100, sampleResponse⟩)]⟩ : ServerState).rateStore).2,
             idemCache := pruneIdempotencyCache 50
               (⟨[], [("K", ⟨100, sampleResponse⟩)]⟩ : ServerState).idemCache })) ∨
      ((zendeskRefundWorkflow 50 failingOracles ⟨"POST", "ip", some witnessBody⟩
          ⟨[], [("K", ⟨100, sampleResponse⟩)]⟩).1.xIdempotentReplay = false ∧
       ∀ R, (zendeskRefundWorkflow 50 failingOracles ⟨"POST", "ip", some witnessBody⟩
          ⟨[], [("K", ⟨100, sampleResponse⟩)]⟩).1.status = 200 →
        (zendeskRefundWorkflow 50 failingOracles ⟨"POST", "ip", some witnessBody⟩
          ⟨[], [("K", ⟨100, sampleResponse⟩)]⟩).1.body = BodyOut.ok R →
        (zendeskRefundWorkflow 50 failingOracles ⟨"POST", "ip", some witnessBody⟩
          ⟨[], [("K", ⟨100, sampleResponse⟩)]⟩).2.idemCache =
          mapSet "K" { expiresAt := 50 + IDEMPOTENCY_TTL_MS, response := R }
            (pruneIdempotencyCache 50
              (⟨[], [("K", ⟨100, sampleResponse⟩)]⟩ : ServerState).idemCache)))) :=
  ⟨⟨rfl, by decide, by decide, by decide⟩,
   explicit_key_verbatim 50 failingOracles ⟨"POST", "ip", some witnessBody⟩ witnessBody
     ⟨[], [("K", ⟨100, sampleResponse⟩)]⟩ "K" rfl rfl (by decide) (by decide) (by decide)
     (by decide) (by decide) rfl (by decide) (by decide) (by decide)⟩

/-- C8 counterexample: on the failed-decision-classification error path the
handler does change the idempotency cache: the prune performed before the
lookup removes the expired entry `("old", { expiresAt := 50, .. })`, so after
the 502 response the cache is empty, not "unchanged". -/

theorem store_only_on_success_cex :
    (zendeskRefundWorkflow 100 failingOracles ⟨"POST", "ip", some errDemoBody⟩
      ⟨[], [("old", ⟨50, sampleResponse⟩)]⟩).1.status = 502 ∧
    (zendeskRefundWorkflow 100 failingOracles ⟨"POST", "ip", some errDemoBody⟩
      ⟨[], [("old", ⟨50, sampleResponse⟩)]⟩).1.body =
      BodyOut.err ⟨"DECIDE_CLASSIFICATION_FAILED", "r", none⟩ ∧
    (zendeskRefundWorkflow 100 failingOracles ⟨"POST", "ip", some errDemoBody⟩
      ⟨[], [("old", ⟨50, sampleResponse⟩)]⟩).2.idemCache = [] ∧
    ([("old", (⟨50, sampleResponse⟩ : IdemEntry))] : List (String × IdemEntry)) ≠ [] := by
  decide

/-- C8 (amended): no handler path other than the fresh 200 success stores or
overwrites an idempotency cache entry.  On every non-200 outcome the cache is
either untouched or merely pruned of entries that were already expired
(`expiresAt ≤ now`); the prune never removes a live entry and never adds one.
A replayed 200 stores nothing.  The entry `{ expiresAt := now + 24h, response }`
is written only by the fresh (non-replay) 200 path. -/

theorem store_only_on_success (now : Nat) (o : Oracles) (req : WorkflowReq)
    (st : ServerState) :
    ((zendeskRefundWorkflow now o req st).1.status ≠ 200 →
      (zendeskRefundWorkflow now o req st).2.idemCache = st.idemCache ∨
      (zendeskRefundWorkflow now o req st).2.idemCache =
        pruneIdempotencyCache now st.idemCache) ∧
    (∀ kv ∈ st.idemCache, now < kv.2.expiresAt →
      kv ∈ pruneIdempotencyCache now st.idemCache) ∧
    (∀ kv ∈ pruneIdempotencyCache now st.idemCache,
      kv ∈ st.idemCache ∧ now < kv.2.expiresAt) ∧
    ((zendeskRefundWorkflow now o req st).1.xIdempotentReplay = true →
      (zendeskRefundWorkflow now o req st).2.idemCache =
        pruneIdempotencyCache now st.idemCache) ∧
    ((zendeskRefundWorkflow now o req st).1.status = 200 →
      (zendeskRefundWorkflow now o req st).1.xIdempotentReplay = false →
      ∃ k R, (zendeskRefundWorkflow now o req st).1.body = BodyOut.ok R ∧
        (zendeskRefundWorkflow now o req st).2.idemCache =
          mapSet k { expiresAt := now + IDEMPOTENCY_TTL_MS, response := R }
            (pruneIdempotencyCache now st.idemCache)) := by
  refine ⟨?_, ?_, ?_, ?_, ?_⟩
  · intro hst
    rcases workflow_cases now o req st with
      ⟨_, _, hcache⟩ | ⟨b, e, k, _, _, _, heq⟩ | ⟨b, R, k, _, _, _, _, heq⟩
    · exact hcache
    · exact absurd (by rw [heq]) hst
    · exact absurd (by rw [heq]) hst
  · intro kv hkv hlive
    simp only [pruneIdempotencyCache, List.mem_filter]
    exact ⟨hkv, by simp; omega⟩
  · intro kv hkv
    simp only [pruneIdempotencyCache, List.mem_filter] at hkv
    refine ⟨hkv.1, ?_⟩
    have := hkv.2
    simp at this
    omega
  · intro hrep
    rcases workflow_cases now o req st with
      ⟨_, hr, _⟩ | ⟨b, e, k, _, _, _, heq⟩ | ⟨b, R, k, _, _, _, _, heq⟩
    · rw [hr] at hrep; cases hrep
    · rw [heq]
    · rw [heq] at hrep; cases hrep
  · intro h200 hnorep
    rcases workflow_cases now o req st with
      ⟨hst, _, _⟩ | ⟨b, e, k, _, _, _, heq⟩ | ⟨b, R, k, _, _, _, _, heq⟩
    · exact absurd h200 hst
    · rw [heq] at hnorep; cases hnorep
    · exact ⟨k, R, by rw [heq], by rw [heq]⟩

/-- Witness for C8 (amended) at a request the handler answers with 204. -/

theorem store_only_on_success_witness :
    (zendeskRefundWorkflow 5 failingOracles ⟨"OPTIONS", "ip", none⟩
        ⟨[], []⟩).2.idemCache = (⟨[], []⟩ : ServerState).idemCache ∨
    (zendeskRefundWorkflow 5 failingOracles ⟨"OPTIONS", "ip", none⟩
        ⟨[], []⟩).2.idemCache =
      pruneIdempotencyCache 5 (⟨[], []⟩ : ServerState).idemCache :=
  (store_only_on_success 5 failingOracles ⟨"OPTIONS", "ip", none⟩ ⟨[], []⟩).1 (by decide)

/-- C10: the handler normalizes inputs before deriving the idempotency key,
so two requests with no explicit key whose fields agree after the code's own
normalization (ticket id after trim, vendor and plan after lower-casing,
region after upper-casing, days after flooring and clamping at zero) derive
the same key; consequently, when the first request succeeds against a fresh
cache, the second request within the 24h TTL is served as a replay of the
first response (even with different oracles and client IP), with the replay
marker set and nothing recomputed. -/

theorem normalized_inputs_replay
    (t1 t2 : Nat) (o1 o2 : Oracles) (ip1 ip2 : String) (b1 b2 : WorkflowBody)
    (rs0 : List (String × RLRecord))
    (hticket12 : normalizeText b1.ticket_id 120 = normalizeText b2.ticket_id 120)
    (hvendor12 : jsToLower (normalizeText b1.vendor 120) =
      jsToLower (normalizeText b2.vendor 120))
    (hregion12 : jsOrS (jsToUpper (normalizeText b1.region 20)) "US" =
      jsOrS (jsToUpper (normalizeText b2.region 20)) "US")
    (hplan12 : jsOrS (jsToLower (normalizeText b1.plan 40)) "individual" =
      jsOrS (jsToLower (normalizeText b2.plan 40)) "individual")
    (hdays12 : parseDays b1.days_since_purchase = parseDays b2.days_since_purchase)
    (hwf1 : jsOrS (jsToLower (normalizeText b1.workflow_type 40)) "refund" = "refund")
    (hwf2 : jsOrS (jsToLower (normalizeText b2.workflow_type 40)) "refund" = "refund")
    (hnokey1 : normalizeText b1.idempotency_key 200 = "")
    (hnokey2 : normalizeText b2.idempotency_key 200 = "")
    (hticket1 : normalizeText b1.ticket_id 120 ≠ "")
    (hvendor1 : jsToLower (normalizeText b1.vendor 120) ≠ "")
    (hdays1 : (parseDays b1.days_since_purchase).isSome)
    (h200 : (zendeskRefundWorkflow t1 o1 ⟨"POST", ip1, some b1⟩ ⟨rs0, []⟩).1.status = 200)
    (hallowed2 : (checkRateLimit 60 60000 t2 ip2
      (zendeskRefundWorkflow t1 o1 ⟨"POST", ip1, some b1⟩ ⟨rs0, []⟩).2.rateStore).1.allowed
        = true)
    (httl : t2 < t1 + IDEMPOTENCY_TTL_MS) :
    derivedRequestKey b1 = derivedRequestKey b2 ∧
    ∃ R, (zendeskRefundWorkflow t1 o1 ⟨"POST", ip1, some b1⟩ ⟨rs0, []⟩).1.body =
        BodyOut.ok R ∧
      zendeskRefundWorkflow t2 o2 ⟨"POST", ip2, some b2⟩
          (zendeskRefundWorkflow t1 o1 ⟨"POST", ip1, some b1⟩ ⟨rs0, []⟩).2 =
        ({ status := 200, xIdempotentReplay := true,
           body := BodyOut.ok { R with idempotent_replay := true } },
         { rateStore := (checkRateLimit 60 60000 t2 ip2
             (zendeskRefundWorkflow t1 o1 ⟨"POST", ip1, some b1⟩ ⟨rs0, []⟩).2.rateStore).2,
           idemCache :=
             (zendeskRefundWorkflow t1 o1 ⟨"POST", ip1, some b1⟩ ⟨rs0, []⟩).2.idemCache }) := by
  have hticket2 : normalizeText b2.ticket_id 120 ≠ "" := hticket12 ▸ hticket1
  have hvendor2 : jsToLower (normalizeText b2.vendor 120) ≠ "" := hvendor12 ▸ hvendor1
  have hdays2 : (parseDays b2.days_since_purchase).isSome := hdays12 ▸ hdays1
  obtain ⟨d, hd1⟩ := Option.isSome_iff_exists.mp hdays1
  have hd2 : parseDays b2.days_since_purchase = some d := hdays12 ▸ hd1
  have hkeys : derivedRequestKey b1 = derivedRequestKey b2 := by
    rw [derivedRequestKey_eq_of_days b1 d hd1, derivedRequestKey_eq_of_days b2 d hd2,
      hnokey1, hnokey2, hticket12, hvendor12, hregion12, hplan12, hwf1, hwf2]
  refine ⟨hkeys, ?_⟩
  rcases workflow_cases t1 o1 ⟨"POST", ip1, some b1⟩ ⟨rs0, []⟩ with
    ⟨hst, _, _⟩ | ⟨b', e, k', hb', hk', hlook, heq⟩ |
    ⟨b', R, k', hb', hk', hRrep, hRkey, heq⟩
  · exact absurd h200 hst
  · rw [show pruneIdempotencyCache t1 (⟨rs0, []⟩ : ServerState).idemCache = [] from rfl]
      at hlook
    simp [cachedLookup, mapGet] at hlook
  · have hbb : b' = b1 := by injection hb' with h; exact h.symm
    rw [hbb] at hk'
    refine ⟨R, by rw [heq], ?_⟩
    have hstate : (zendeskRefundWorkflow t1 o1 ⟨"POST", ip1, some b1⟩ ⟨rs0, []⟩).2 =
        { rateStore := (checkRateLimit 60 60000 t1 ip1 rs0).2,
          idemCache := [(k', ⟨t1 + IDEMPOTENCY_TTL_MS, R⟩)] } := by
      rw [heq]
      rfl
    have hkeep : pruneIdempotencyCache t2 [(k', ⟨t1 + IDEMPOTENCY_TTL_MS, R⟩)] =
        [(k', (⟨t1 + IDEMPOTENCY_TTL_MS, R⟩ : IdemEntry))] := by
      have h1 : ¬ ((⟨t1 + IDEMPOTENCY_TTL_MS, R⟩ : IdemEntry).expiresAt ≤ t2) := by
        show ¬ (t1 + IDEMPOTENCY_TTL_MS ≤ t2)
        omega
      simp [pruneIdempotencyCache, h1]
    have hlook2 : cachedLookup (derivedRequestKey b2) t2
        (pruneIdempotencyCache t2
          (zendeskRefundWorkflow t1 o1 ⟨"POST", ip1, some b1⟩ ⟨rs0, []⟩).2.idemCache) =
        some ⟨t1 + IDEMPOTENCY_TTL_MS, R⟩ := by
      rw [hstate]
      simp only [hkeep, ← hkeys, ← hk']
      simp [cachedLookup, mapGet, httl]
    have hrep2 := workflow_replay_eq t2 o2 ⟨"POST", ip2, some b2⟩ b2
      ((zendeskRefundWorkflow t1 o1 ⟨"POST", ip1, some b1⟩ ⟨rs0, []⟩).2)
      ⟨t1 + IDEMPOTENCY_TTL_MS, R⟩ rfl rfl hallowed2 hticket2 hvendor2 hdays2 hwf2 hlook2
    rw [hrep2, hstate]
    simp only [hkeep]

/-- Witness for C10 at the concrete pair of requests `normDemoBody1` /
`normDemoBody2` (they differ in whitespace, letter case, days `-3` vs `0`
and the free-text question). -/

theorem normalized_inputs_replay_witness :
    (normalizeText normDemoBody1.ticket_id 120 = normalizeText normDemoBody2.ticket_id 120 ∧
     jsToLower (normalizeText normDemoBody1.vendor 120) =
       jsToLower (normalizeText normDemoBody2.vendor 120) ∧
     jsOrS (jsToUpper (normalizeText normDemoBody1.region 20)) "US" =
       jsOrS (jsToUpper (normalizeText normDemoBody2.region 20)) "US" ∧
     parseDays normDemoBody1.days_since_purchase =
       parseDays normDemoBody2.days_since_purchase ∧
     normDemoBody1.question ≠ normDemoBody2.question ∧
     (zendeskRefundWorkflow 1000 failingOracles ⟨"POST", "1.1.1.1", some normDemoBody1⟩
        ⟨[], []⟩).1.status = 200 ∧
     2000 < 1000 + IDEMPOTENCY_TTL_MS) ∧
    (derivedRequestKey normDemoBody1 = derivedRequestKey normDemoBody2 ∧
     ∃ R, (zendeskRefundWorkflow 1000 failingOracles
          ⟨"POST", "1.1.1.1", some normDemoBody1⟩ ⟨[], []⟩).1.body = BodyOut.ok R ∧
      zendeskRefundWorkflow 2000 failingOracles ⟨"POST", "2.2.2.2", some normDemoBody2⟩
          (zendeskRefundWorkflow 1000 failingOracles
            ⟨"POST", "1.1.1.1", some normDemoBody1⟩ ⟨[], []⟩).2 =
        ({ status := 200, xIdempotentReplay := true,
           body := BodyOut.ok { R with idempotent_replay := true } },
         { rateStore := (checkRateLimit 60 60000 2000 "2.2.2.2"
             (zendeskRefundWorkflow 1000 failingOracles
               ⟨"POST", "1.1.1.1", some normDemoBody1⟩ ⟨[], []⟩).2.rateStore).2,
           idemCache := (zendeskRefundWorkflow 1000 failingOracles
             ⟨"POST", "1.1.1.1", some normDemoBody1⟩ ⟨[], []⟩).2.idemCache })) :=
  ⟨⟨by decide, by decide, by decide, by decide, by decide, by decide, by decide⟩,
   normalized_inputs_replay 1000 2000 failingOracles failingOracles "1.1.1.1" "2.2.2.2"
     normDemoBody1 normDemoBody2 [] (by decide) (by decide) (by decide) (by decide)
     (by decide) (by decide) (by decide) (by decide) (by decide) (by decide) (by decide)
     (by decide) (by decide) (by decide) (by decide)⟩

lemma digitChar_ne_colon (n : Nat) : Nat.digitChar n ≠ ':' := by
  by_cases h16 : n < 16
  · interval_cases n <;> decide
  · have hstar : Nat.digitChar n = '*' := by
      unfold Nat.digitChar
      repeat rw [if_neg (by omega)]
    rw [hstar]
    decide

lemma toDigitsCore_ne_colon : ∀ (f n : Nat) (acc : List Char),
    (∀ c ∈ acc, c ≠ ':') → ∀ c ∈ Nat.toDigitsCore 10 f n acc, c ≠ ':' := by
  intro f
  induction f with
  | zero => intro n acc hacc; simpa [Nat.toDigitsCore] using hacc
  | succ f ih =>
    intro n acc hacc
    simp only [Nat.toDigitsCore]
    split
    · intro c hc
      rcases List.mem_cons.mp hc with rfl | hc'
      · exact digitChar_ne_colon _
      · exact hacc c hc'
    · apply ih
      intro c hc
      rcases List.mem_cons.mp hc with rfl | hc'
      · exact digitChar_ne_colon _
      · exact hacc c hc'

lemma repr_ne_colon (n : Nat) : ':' ∉ (Nat.repr n).data := by
  intro hmem
  exact toDigitsCore_ne_colon (n + 1) n [] (by simp) ':' hmem rfl

lemma toDigitsCore_append : ∀ (f n : Nat) (acc : List Char),
    Nat.toDigitsCore 10 f n acc = Nat.toDigitsCore 10 f n [] ++ acc := by
  intro f
  induction f with
  | zero => intro n acc; simp [Nat.toDigitsCore]
  | succ f ih =>
    intro n acc
    simp only [Nat.toDigitsCore]
    split
    · simp
    · rw [ih (n / 10) (Nat.digitChar (n % 10) :: acc),
        ih (n / 10) [Nat.digitChar (n % 10)]]
      simp

lemma digitChar_val : ∀ m, m < 10 → (Nat.digitChar m).toNat - '0'.toNat = m := by decide

lemma digitsVal_toDigitsCore : ∀ (f n : Nat), n < f →
    digitsValFrom 0 (Nat.toDigitsCore 10 f n []) = n := by
  intro f
  induction f with
  | zero => intro n h; omega
  | succ f ih =>
    intro n h
    simp only [Nat.toDigitsCore]
    split
    · rename_i hdiv
      have hlt : n < 10 := by omega
      have hmod : n % 10 = n := Nat.mod_eq_of_lt hlt
      have hfold : digitsValFrom 0 [Nat.digitChar (n % 10)] =
          0 * 10 + ((Nat.digitChar (n % 10)).toNat - '0'.toNat) := rfl
      rw [hfold, digitChar_val (n % 10) (by omega)]
      omega
    · rename_i hdiv
      rw [toDigitsCore_append f (n / 10) [Nat.digitChar (n % 10)]]
      rw [digitsValFrom, List.foldl_append]
      have hrec : n / 10 < f := by omega
      have hih := ih (n / 10) hrec
      rw [digitsValFrom] at hih
      rw [hih]
      have hfold : List.foldl (fun acc c => acc * 10 + (c.toNat - '0'.toNat)) (n / 10)
          [Nat.digitChar (n % 10)] =
          (n / 10) * 10 + ((Nat.digitChar (n % 10)).toNat - '0'.toNat) := rfl
      rw [hfold, digitChar_val (n % 10) (by omega)]
      omega

lemma natRepr_injective (m n : Nat) (h : Nat.repr m = Nat.repr n) : m = n := by
  have hdata : Nat.toDigits 10 m = Nat.toDigits 10 n := congrArg String.data h
  have h1 := digitsVal_toDigitsCore (m + 1) m (Nat.lt_succ_self m)
  have h2 := digitsVal_toDigitsCore (n + 1) n (Nat.lt_succ_self n)
  rw [← h1, ← h2]
  unfold Nat.toDigits at hdata
  rw [hdata]

lemma chop_colon : ∀ (a b r1 r2 : List Char), ':' ∉ a → ':' ∉ b →
    a ++ ':' :: r1 = b ++ ':' :: r2 → a = b ∧ r1 = r2 := by
  intro a
  induction a with
  | nil =>
    intro b r1 r2 _ hb h
    cases b with
    | nil => simpa using h
    | cons c bs =>
      simp only [List.nil_append, List.cons_append, List.cons.injEq] at h
      exact absurd (List.mem_cons.mpr (Or.inl h.1)) hb
  | cons x xs ih =>
    intro b r1 r2 ha hb h
    cases b with
    | nil =>
      simp only [List.nil_append, List.cons_append, List.cons.injEq] at h
      exact absurd (List.mem_cons.mpr (Or.inl h.1.symm)) ha
    | cons y ys =>
      simp only [List.cons_append, List.cons.injEq] at h
      obtain ⟨rfl, h2⟩ := h
      have ha' : ':' ∉ xs := fun hm => ha (List.mem_cons.mpr (Or.inr hm))
      have hb' : ':' ∉ ys := fun hm => hb (List.mem_cons.mpr (Or.inr hm))
      obtain ⟨he, hr⟩ := ih ys r1 r2 ha' hb' h2
      exact ⟨by rw [he], hr⟩

lemma buildIdempotencyKey_data (t wf v : String) (d : Nat) (r p : String) :
    (buildIdempotencyKey t wf v d r p).data =
      t.data ++ ':' :: (wf.data ++ ':' :: (v.data ++ ':' :: ((Nat.repr d).data ++
        ':' :: (r.data ++ ':' :: p.data)))) := by
  have hc : (":" : String).data = [':'] := rfl
  simp [buildIdempotencyKey, joinColon, String.data_append, hc, List.append_assoc]

/-- C3 (amended): provided the normalized ticket id, workflow type, vendor and
region of the two requests contain no `:` delimiter character, the derived
keys are equal exactly when the six key-derivation fields agree — so requests
differing in any field never collide, and requests agreeing on all six always
collide regardless of the free-text question (which never enters
`buildIdempotencyKey`). -/
theorem idempotency_key_sensitivity
    (t1 wf1 v1 r1 p1 t2 wf2 v2 r2 p2 : String) (d1 d2 : Nat)
    (ht1 : ':' ∉ t1.data) (ht2 : ':' ∉ t2.data)
    (hw1 : ':' ∉ wf1.data) (hw2 : ':' ∉ wf2.data)
    (hv1 : ':' ∉ v1.data) (hv2 : ':' ∉ v2.data)
    (hr1 : ':' ∉ r1.data) (hr2 : ':' ∉ r2.data) :
    (buildIdempotencyKey t1 wf1 v1 d1 r1 p1 = buildIdempotencyKey t2 wf2 v2 d2 r2 p2 ↔
      (t1 = t2 ∧ wf1 = wf2 ∧ v1 = v2 ∧ d1 = d2 ∧ r1 = r2 ∧ p1 = p2)) ∧
    (∀ b1 b2 : WorkflowBody,
      normalizeText b1.ticket_id 120 = normalizeText b2.ticket_id 120 →
      jsOrS (jsToLower (normalizeText b1.workflow_type 40)) "refund" =
        jsOrS (jsToLower (normalizeText b2.workflow_type 40)) "refund" →
      jsToLower (normalizeText b1.vendor 120) = jsToLower (normalizeText b2.vendor 120) →
      parseDays b1.days_since_purchase = parseDays b2.days_since_purchase →
      jsOrS (jsToUpper (normalizeText b1.region 20)) "US" =
        jsOrS (jsToUpper (normalizeText b2.region 20)) "US" →
      jsOrS (jsToLower (normalizeText b1.plan 40)) "individual" =
        jsOrS (jsToLower (normalizeText b2.plan 40)) "individual" →
      normalizeText b1.idempotency_key 200 = "" →
      normalizeText b2.idempotency_key 200 = "" →
      derivedRequestKey b1 = derivedRequestKey b2) := by
  constructor
  · constructor
    · intro h
      have hd := congrArg String.data h
      rw [buildIdempotencyKey_data, buildIdempotencyKey_data] at hd
      obtain ⟨e1, hd⟩ := chop_colon _ _ _ _ ht1 ht2 hd
      obtain ⟨e2, hd⟩ := chop_colon _ _ _ _ hw1 hw2 hd
      obtain ⟨e3, hd⟩ := chop_colon _ _ _ _ hv1 hv2 hd
      obtain ⟨e4, hd⟩ := chop_colon _ _ _ _ (repr_ne_colon d1) (repr_ne_colon d2) hd
      obtain ⟨e5, e6⟩ := chop_colon _ _ _ _ hr1 hr2 hd
      exact ⟨String.ext e1, String.ext e2, String.ext e3,
        natRepr_injective d1 d2 (String.ext e4), String.ext e5, String.ext e6⟩
    · rintro ⟨rfl, rfl, rfl, rfl, rfl, rfl⟩
      rfl
  · intro b1 b2 hti hwf hv hdy hr hp hk1 hk2
    simp only [derivedRequestKey, hk1, hk2, hti, hwf, hv, hdy, hr, hp]

/-- C3 counterexample: `buildIdempotencyKey` joins the fields with `:` without
escaping, so fields containing the delimiter can shift material between
positions: `("t","refund","v:1",5,"US","p")` and `("t","refund","v",1,"5:US","p")`
differ in vendor, days and region yet produce the same key, refuting the
never-collide half of the claim as stated. -/
theorem idempotency_key_sensitivity_cex :
    buildIdempotencyKey "t" "refund" "v:1" 5 "US" "p" =
      buildIdempotencyKey "t" "refund" "v" 1 "5:US" "p" ∧
    ("v:1" : String) ≠ "v" ∧ (5 : Nat) ≠ 1 ∧ ("US" : String) ≠ "5:US" := by decide

/-- Witness for C3 (amended) at colon-free fields: keys for days 5 and 6
collide only if 5 = 6. -/
theorem idempotency_key_sensitivity_witness :
    ((':' ∉ ("ZD-1" : String).data) ∧ (':' ∉ ("refund" : String).data) ∧
     (':' ∉ ("adobe" : String).data) ∧ (':' ∉ ("US" : String).data)) ∧
    ((buildIdempotencyKey "ZD-1" "refund" "adobe" 5 "US" "individual" =
        buildIdempotencyKey "ZD-1" "refund" "adobe" 6 "US" "individual" ↔
      ("ZD-1" : String) = "ZD-1" ∧ ("refund" : String) = "refund" ∧
      ("adobe" : String) = "adobe" ∧ (5 : Nat) = 6 ∧ ("US" : String) = "US" ∧
      ("individual" : String) = "individual") ∧
     (∀ b1 b2 : WorkflowBody,
      normalizeText b1.ticket_id 120 = normalizeText b2.ticket_id 120 →
      jsOrS (jsToLower (normalizeText b1.workflow_type 40)) "refund" =
        jsOrS (jsToLower (normalizeText b2.workflow_type 40)) "refund" →
      jsToLower (normalizeText b1.vendor 120) = jsToLower (normalizeText b2.vendor 120) →
      parseDays b1.days_since_purchase = parseDays b2.days_since_purchase →
      jsOrS (jsToUpper (normalizeText b1.region 20)) "US" =
        jsOrS (jsToUpper (normalizeText b2.region 20)) "US" →
      jsOrS (jsToLower (normalizeText b1.plan 40)) "individual" =
        jsOrS (jsToLower (normalizeText b2.plan 40)) "individual" →
      normalizeText b1.idempotency_key 200 = "" →
      normalizeText b2.idempotency_key 200 = "" →
      derivedRequestKey b1 = derivedRequestKey b2)) :=
  ⟨⟨by decide, by decide, by decide, by decide⟩,
   idempotency_key_sensitivity "ZD-1" "refund" "adobe" "US" "individual"
     "ZD-1" "refund" "adobe" "US" "individual" 5 6
     (by decide) (by decide) (by decide) (by decide) (by decide) (by decide)
     (by decide) (by decide)⟩

lemma validateInput_cases (rules : CancelRules) (vendor region plan : Option String)
    (e : ComputeResult) (h : validateInput rules vendor region plan = some e) :
    e.verdict = "UNKNOWN" ∧
    (e.code = "MISSING_VENDOR" ∨ e.code = "MISSING_REGION" ∨ e.code = "MISSING_PLAN") := by
  unfold validateInput at h
  split at h
  · obtain rfl : _ = e := by injection h
    exact ⟨rfl, Or.inl rfl⟩
  · split at h
    · obtain rfl : _ = e := by injection h
      exact ⟨rfl, Or.inl rfl⟩
    · split at h
      · obtain rfl : _ = e := by injection h
        exact ⟨rfl, Or.inr (Or.inl rfl)⟩
      · split at h
        · obtain rfl : _ = e := by injection h
          exact ⟨rfl, Or.inr (Or.inl rfl)⟩
        · split at h
          · obtain rfl : _ = e := by injection h
            exact ⟨rfl, Or.inr (Or.inr rfl)⟩
          · split at h
            · obtain rfl : _ = e := by injection h
              exact ⟨rfl, Or.inr (Or.inr rfl)⟩
            · cases h

/-- C9: the policy evaluator is total and pure.  For every rules table and
every input shape (vendor, region, plan each possibly missing or
non-string), `compute` returns — being a total pure function, it cannot
throw or have side effects — a structured result whose `verdict` belongs to
the fixed enumeration `FREE_CANCEL / PENALTY / LOCKED / UNKNOWN` and whose
`code` belongs to a fixed set of descriptive codes; inputs rejected by
`validateInput` yield exactly that validation error, an `UNKNOWN` verdict
with a descriptive code, rather than an exception. -/

theorem compute_total (rules : CancelRules) (vendor region plan : Option String) :
    ((compute rules vendor region plan).verdict = "FREE_CANCEL" ∨
     (compute rules vendor region plan).verdict = "PENALTY" ∨
     (compute rules vendor region plan).verdict = "LOCKED" ∨
     (compute rules vendor region plan).verdict = "UNKNOWN") ∧
    ((compute rules vendor region plan).code ∈
      ["MISSING_VENDOR", "MISSING_REGION", "MISSING_PLAN", "NON_US_REGION",
       "NON_INDIVIDUAL_PLAN", "UNSUPPORTED_VENDOR", "NO_PENALTY",
       "EARLY_TERMINATION_FEE", "CONTRACT_LOCKED", "UNKNOWN_POLICY"]) ∧
    (∀ e, validateInput rules (vendor.map (fun s => jsTrim (jsToLower s))) region plan =
        some e →
      compute rules vendor region plan = e ∧ e.verdict = "UNKNOWN") := by
  generalize hC : compute rules vendor region plan = C
  unfold compute at hC
  split at hC
  · rename_i e heq
    obtain ⟨hv, hc⟩ := validateInput_cases _ _ _ _ _ heq
    subst hC
    refine ⟨Or.inr (Or.inr (Or.inr hv)), ?_, ?_⟩
    · rcases hc with h | h | h <;> simp [h]
    · intro e2 heq2
      rw [heq] at heq2
      obtain rfl : e = e2 := by injection heq2
      exact ⟨rfl, hv⟩
  · rename_i heq
    have hval : ∀ e2, validateInput rules
        (vendor.map (fun s => jsTrim (jsToLower s))) region plan = some e2 →
        C = e2 ∧ e2.verdict = "UNKNOWN" := by
      intro e2 heq2
      rw [heq] at heq2
      cases heq2
    split at hC
    · subst hC
      exact ⟨Or.inr (Or.inr (Or.inr rfl)), by simp, hval⟩
    · split at hC
      · subst hC
        exact ⟨Or.inr (Or.inr (Or.inr rfl)), by simp, hval⟩
      · split at hC
        · subst hC
          exact ⟨Or.inr (Or.inr (Or.inr rfl)), by simp, hval⟩
        · split at hC
          · subst hC
            exact ⟨Or.inl rfl, by simp, hval⟩
          · split at hC
            · subst hC
              exact ⟨Or.inr (Or.inl rfl), by simp, hval⟩
            · split at hC
              · subst hC
                exact ⟨Or.inr (Or.inr (Or.inl rfl)), by simp, hval⟩
              · subst hC
                exact ⟨Or.inr (Or.inr (Or.inr rfl)), by simp, hval⟩

/-- Witness for C9 at a concrete rules table and a missing-region input. -/

theorem compute_total_witness :
    compute sampleRules (some "Adobe") none (some "individual") =
      { verdict := "UNKNOWN", code := "MISSING_REGION",
        message := "region is required and must be a non-empty string",
        rules_version := "v1", vendor := none, policy := none, penalty := none,
        notice_days := none, supported_vendors := none } ∧
    ({ verdict := "UNKNOWN", code := "MISSING_REGION",
       message := "region is required and must be a non-empty string",
       rules_version := "v1", vendor := none, policy := none, penalty := none,
       notice_days := none, supported_vendors := none } : ComputeResult).verdict =
      "UNKNOWN" :=
  (compute_total sampleRules (some "Adobe") none (some "individual")).2.2 _ (by decide)
